import Mathlib

/-!
# Face-replacement pipeline (`AdvancedFaceSwapper`)

A shallow embedding of `src/AdvancedFaceSwapper.cpp`, and of the methods `swapFace`,
`getFacePoints`, `extractLandmarks` and `setBlendStrength` of `src/FaceSwapper.cpp`; the
rectangle `faceRectOf` and the mask are the same in both files.

Conventions of the embedding:

* `float` and `double` values are exact rationals (`ℚ`); the embedder is written over an
  arbitrary linearly ordered field so that its statements also hold over the reals.
* `int` values are integers (`ℤ`); image dimensions, which OpenCV keeps non-negative, are
  naturals.
* an 8-bit image is a `Mat ℕ`, a 32-bit float image a `Mat ℚ`; `convertTo(.., CV_8U)` is
  `saturate8` (round half to even, then clamp to `0..255`).
* a colour image has three channels; a sample is addressed by row, column and channel.
* OpenCV routines whose result the repository does not compute itself (detector, warps,
  resizing, filters, networks) are fields of the structure `OpenCV`; each may raise.
* an exception is a value of `Exn`; `cv::Mat()` is the image with no rows and no columns.
-/

namespace FaceSwap

/-! ## Numbers -/

/-- The conversion `static_cast<int>(float)`: truncation toward zero. -/
def truncInt (q : ℚ) : ℤ := if 0 ≤ q then ⌊q⌋ else ⌈q⌉

/-- The rounding `cvRound`: to the nearest integer, ties to the even one. -/
def cvRound (q : ℚ) : ℤ :=
  if q - ⌊q⌋ < 1 / 2 then ⌊q⌋
  else if 1 / 2 < q - ⌊q⌋ then ⌊q⌋ + 1
  else if ⌊q⌋ % 2 = 0 then ⌊q⌋ else ⌊q⌋ + 1

/-- The conversion `saturate_cast<uchar>(float)` applied by `convertTo(.., CV_8U)`. -/
def saturate8 (q : ℚ) : ℕ := (min 255 (max 0 (cvRound q))).toNat

/-! ## Geometry -/

/-- A `cv::Point2f`. -/
structure Point2f where
  x : ℚ
  y : ℚ
deriving DecidableEq

/-- A `cv::Point` with integer coordinates. -/
structure Point2i where
  x : ℤ
  y : ℤ
deriving DecidableEq

/-- A `cv::Rect`. -/
structure Rect where
  x : ℤ
  y : ℤ
  width : ℤ
  height : ℤ
deriving DecidableEq

/-- The detector output `cv::Mat faces`: one row of floats per face. -/
abbrev Faces := List (List ℚ)

/-- The access `faces.at<float>(i, k)`. -/
def Faces.at (faces : Faces) (i k : ℕ) : ℚ := (faces.getD i []).getD k 0

/-- The rectangle built from a detector row in `detectAndSwap` (lines 681-686) and in
`loadSourceFace` (lines 130-135), for an image of `cols` by `rows`. -/
def faceRectOf (cols rows : ℤ) (x y w h : ℚ) : Rect where
  x := max 0 (truncInt x)
  y := max 0 (truncInt y)
  width := min (cols - truncInt x) (truncInt w)
  height := min (rows - truncInt y) (truncInt h)

/-- The test `rect.x < 0 || rect.y < 0 || rect.x + rect.width > cols ||
rect.y + rect.height > rows` of `blendFace` and of the geometric fallback. -/
def Rect.outOfBounds (r : Rect) (cols rows : ℤ) : Bool :=
  decide (r.x < 0) || decide (r.y < 0) || decide (cols < r.x + r.width)
    || decide (rows < r.y + r.height)

/-- The precondition OpenCV asserts in `Mat::operator()(const Rect&)`. -/
def Rect.validRoi (r : Rect) (cols rows : ℤ) : Bool :=
  decide (0 ≤ r.x) && decide (0 ≤ r.width) && decide (r.x + r.width ≤ cols)
    && decide (0 ≤ r.y) && decide (0 ≤ r.height) && decide (r.y + r.height ≤ rows)

/-! ## Images -/

/-- The samples of an image: row, column, channel. -/
abbrev Pixels (α : Type) := ℕ → ℕ → ℕ → α

/-- A `cv::Mat` holding an image: `rows` by `cols` samples per channel. -/
structure Mat (α : Type) where
  rows : ℕ
  cols : ℕ
  px : Pixels α

namespace Mat

variable {α β γ : Type}

/-- The image `cv::Mat()`. -/
def nil [Zero α] : Mat α := ⟨0, 0, fun _ _ _ => 0⟩

/-- The test `m.empty()`. -/
def empty (m : Mat α) : Bool := m.rows == 0 || m.cols == 0

/-- The test `m.size() == cv::Size(w, h)`. -/
def hasSize (m : Mat α) (w h : ℤ) : Bool := decide ((m.cols : ℤ) = w) && decide ((m.rows : ℤ) = h)

/-- The test `a.size() == b.size()`. -/
def sameSize (a : Mat α) (b : Mat β) : Bool := a.cols == b.cols && a.rows == b.rows

/-- A sample-wise operation such as `convertTo` or a scaling. -/
def map (f : α → β) (m : Mat α) : Mat β := ⟨m.rows, m.cols, fun i j c => f (m.px i j c)⟩

/-- A sample-wise operation on two images of one size. -/
def zipWith (f : α → β → γ) (a : Mat α) (b : Mat β) : Mat γ :=
  ⟨a.rows, a.cols, fun i j c => f (a.px i j c) (b.px i j c)⟩

/-- The sub-image `m(rect)`, for a rectangle that passes `Rect.validRoi`. -/
def roi (m : Mat α) (r : Rect) : Mat α :=
  ⟨r.height.toNat, r.width.toNat, fun i j c => m.px (r.y.toNat + i) (r.x.toNat + j) c⟩

/-- Whether sample position `(i, j)` lies inside the rectangle. -/
def inRect (r : Rect) (i j : ℕ) : Bool :=
  decide (r.y ≤ (i : ℤ)) && decide ((i : ℤ) < r.y + r.height) && decide (r.x ≤ (j : ℤ))
    && decide ((j : ℤ) < r.x + r.width)

/-- The image after `src` has been written into `m(rect)`. -/
def setRoi (m : Mat α) (r : Rect) (src : Mat α) : Mat α :=
  ⟨m.rows, m.cols, fun i j c =>
    if inRect r i j then src.px (i - r.y.toNat) (j - r.x.toNat) c else m.px i j c⟩

end Mat

/-- A two-dimensional single-channel float matrix (an embedding, a network output):
its shape and its elements in row-major order. -/
structure FMat (K : Type) where
  rows : ℕ
  cols : ℕ
  data : List K

namespace FMat

variable {K : Type}

/-- The matrix `cv::Mat()`. -/
def nil : FMat K := ⟨0, 0, []⟩

/-- The test `m.empty() || m.total() == 0`. -/
def empty (m : FMat K) : Bool := m.data.isEmpty

/-- The call `m.reshape(_, 1)`: the same elements as a single row. -/
def reshapeRow (m : FMat K) : FMat K := ⟨1, m.data.length, m.data⟩

end FMat

/-- The sum of the squares of the components. -/
def sumSq {K : Type} [Semiring K] (v : List K) : K := (v.map fun x => x * x).sum

/-- A 2x3 affine transform as returned by `getAffineTransform`. -/
structure Affine where
  a11 : ℚ
  a12 : ℚ
  b1 : ℚ
  a21 : ℚ
  a22 : ℚ
  b2 : ℚ
deriving DecidableEq

/-! ## Exceptions and the OpenCV collaborators -/

/-- An exception: a `cv::Exception`, or any other. -/
inductive Exn where
  | cv
  | other
deriving DecidableEq

/-- The OpenCV routines the pipeline calls. A routine that writes a destination of a
requested size returns the samples only; the caller's image takes the requested size. -/
structure OpenCV where
  /-- CLAHE applied to the three planes of a frame (`split`, `apply`, `merge`). -/
  clahe : Mat ℕ → Except Exn (Pixels ℕ)
  /-- The calls `setInputSize` and `detect` of the detector. -/
  detect : Mat ℕ → Except Exn Faces
  /-- The routine `cv::estimateAffinePartial2D`; `none` is the empty matrix. -/
  estimateAffinePartial2D : List Point2f → List Point2f → Except Exn (Option Affine)
  /-- The routine `cv::getAffineTransform`; `none` is the empty matrix. -/
  getAffineTransform : List Point2f → List Point2f → Except Exn (Option Affine)
  /-- The routine `cv::warpAffine` for a destination of `w` by `h`. -/
  warpAffine : Mat ℕ → Affine → ℤ → ℤ → Except Exn (Pixels ℕ)
  /-- The routine `cv::resize` to `w` by `h`. -/
  resize : Mat ℕ → ℤ → ℤ → Except Exn (Pixels ℕ)
  /-- The filled ellipse drawn by `cv::ellipse` with the given centre and axes. -/
  ellipse : Mat ℕ → Point2i → Point2i → Except Exn (Pixels ℕ)
  /-- The routine `cv::convexHull`. -/
  convexHull : List Point2i → Except Exn (List Point2i)
  /-- The routine `cv::fillConvexPoly` with colour 255. -/
  fillConvexPoly : Mat ℕ → List Point2i → Except Exn (Pixels ℕ)
  /-- The routine `cv::GaussianBlur` with a square kernel of the given side. -/
  gaussianBlur : Mat ℕ → ℤ → Except Exn (Pixels ℕ)
  /-- The forward pass of the embedding network on its input blob. -/
  arcFaceForward : Mat ℚ → Except Exn (List (FMat ℚ))
  /-- The forward pass of the synthesis network on the inputs `target` and `source`;
  the output tensor is given flat, in channel-first order. -/
  inSwapperForward : Mat ℚ → FMat ℚ → Except Exn (List ℚ)
  /-- The routine `cv::norm(.., NORM_L2)`. -/
  norm : List ℚ → ℚ

/-! ## The object state -/

/-- The fields of `AdvancedFaceSwapper` (`AdvancedFaceSwapper.hpp`, lines 49-77); the
detector and the networks are in `OpenCV`, their flags here. -/
structure AdvancedFaceSwapper where
  faceDetectorLoaded : Bool
  arcFaceLoaded : Bool
  inSwapperLoaded : Bool
  gfpganLoaded : Bool
  sourceFaceImage : Mat ℕ
  sourceFaceAligned : Mat ℕ
  sourceLandmarks : List Point2f
  sourceFaceRect : Rect
  sourceFaceEmbedding : FMat ℚ
  sourceFaceLoaded : Bool
  blendStrength : ℚ
  enableGFPGAN : Bool
  useTemporalStabilization : Bool
  stabilizationStrength : ℚ
  lastFaceCount : ℤ
  previousFaces : List (Mat ℕ)
  previousLandmarks : List (List Point2f)

/-- The constant `MAX_HISTORY`. -/
def MAX_HISTORY : ℕ := 5

/-- The constructor (lines 6-17). -/
def AdvancedFaceSwapper.new : AdvancedFaceSwapper where
  faceDetectorLoaded := false
  arcFaceLoaded := false
  inSwapperLoaded := false
  gfpganLoaded := false
  sourceFaceImage := Mat.nil
  sourceFaceAligned := Mat.nil
  sourceLandmarks := []
  sourceFaceRect := ⟨0, 0, 0, 0⟩
  sourceFaceEmbedding := FMat.nil
  sourceFaceLoaded := false
  blendStrength := 0.95
  enableGFPGAN := false
  useTemporalStabilization := true
  stabilizationStrength := 0.7
  lastFaceCount := 0
  previousFaces := []
  previousLandmarks := []

/-! ## Pipeline stages -/

/-- The method `extractLandmarks` (lines 159-174). -/
def extractLandmarks (faces : Faces) (faceIndex : ℕ) : List Point2f :=
  if faces.length ≤ faceIndex then []
  else
    [⟨faces.at faceIndex 6, faces.at faceIndex 7⟩,
     ⟨faces.at faceIndex 4, faces.at faceIndex 5⟩,
     ⟨faces.at faceIndex 8, faces.at faceIndex 9⟩,
     ⟨faces.at faceIndex 12, faces.at faceIndex 13⟩,
     ⟨faces.at faceIndex 10, faces.at faceIndex 11⟩]

/-- The method `preprocessFrame` (lines 176-190): the result has the frame's size. -/
def preprocessFrame (cv : OpenCV) (frame : Mat ℕ) : Except Exn (Mat ℕ) :=
  match cv.clahe frame with
  | .error e => .error e
  | .ok p => .ok ⟨frame.rows, frame.cols, p⟩

/-- The canonical template `dstPoints` of `alignFace` (lines 199-205). -/
def alignTemplate (outputSize : ℤ) : List Point2f :=
  [⟨0.31556875 * outputSize, 0.46157407 * outputSize⟩,
   ⟨0.68262292 * outputSize, 0.46157407 * outputSize⟩,
   ⟨0.50026250 * outputSize, 0.64050537 * outputSize⟩,
   ⟨0.37015179 * outputSize, 0.82469196 * outputSize⟩,
   ⟨0.63151667 * outputSize, 0.82469196 * outputSize⟩]

/-- The points shifted to be relative to the rectangle's origin. -/
def relativeTo (faceRect : Rect) (pts : List Point2f) : List Point2f :=
  pts.map fun pt => ⟨pt.x - faceRect.x, pt.y - faceRect.y⟩

/-- The method `alignFace` (lines 192-228). The extraction `image(faceRect)` raises
when the rectangle is not inside the image. -/
def alignFace (cv : OpenCV) (image : Mat ℕ) (landmarks : List Point2f) (faceRect : Rect)
    (outputSize : ℤ) : Except Exn (Mat ℕ) :=
  if landmarks.length < 5 then .ok Mat.nil
  else
    match cv.estimateAffinePartial2D (relativeTo faceRect landmarks) (alignTemplate outputSize) with
    | .error e => .error e
    | .ok none => .ok Mat.nil
    | .ok (some transform) =>
      if faceRect.validRoi image.cols image.rows then
        match cv.warpAffine (image.roi faceRect) transform outputSize outputSize with
        | .error e => .error e
        | .ok p => .ok ⟨outputSize.toNat, outputSize.toNat, p⟩
      else .error .cv

/-- The routine `cv::dnn::blobFromImage(image, scale, size, Scalar(), true, false)` for an
image that already has the requested size: scaling and the swap of the first and third
channel. -/
def blobFromImage {K : Type} [Mul K] (image : Mat K) (scale : K) : Mat K :=
  ⟨image.rows, image.cols, fun i j c => image.px i j (2 - c) * scale⟩

/-- Lines 254-282 of `extractFaceEmbedding`: the first network output made a single row
and divided by its norm when that norm is positive. -/
def normalizeEmbedding {K : Type} [LinearOrderedField K] (norm : List K → K)
    (output : FMat K) : FMat K :=
  let embedding := if 1 < output.rows then output.reshapeRow else output
  if embedding.empty then FMat.nil
  else
    let embedding := if embedding.cols ≠ 512 then embedding.reshapeRow else embedding
    let normVal := norm embedding.data
    if 0 < normVal then ⟨embedding.rows, embedding.cols, embedding.data.map fun v => v / normVal⟩
    else embedding

/-- The method `extractFaceEmbedding` (lines 230-291); every exception is caught inside. -/
def extractFaceEmbedding {K : Type} [LinearOrderedField K]
    (resize : Mat ℕ → ℤ → ℤ → Except Exn (Pixels ℕ))
    (forward : Mat K → Except Exn (List (FMat K))) (norm : List K → K)
    (arcFaceLoaded : Bool) (alignedFace : Mat ℕ) : FMat K :=
  if !arcFaceLoaded || alignedFace.empty then FMat.nil
  else
    match resize alignedFace 112 112 with
    | .error _ => FMat.nil
    | .ok p =>
      let input : Mat K := (Mat.mk 112 112 p).map fun (v : ℕ) => (v : K) * (1 / 127.5) + (-1)
      match forward (blobFromImage input 1) with
      | .error _ => FMat.nil
      | .ok [] => FMat.nil
      | .ok (output :: _) => normalizeEmbedding norm output

/-- An image brought to `w` by `h`: kept when it has that size, resized otherwise. -/
def resizeTo (cv : OpenCV) (m : Mat ℕ) (w h : ℤ) : Except Exn (Mat ℕ) :=
  if m.hasSize w h then .ok m
  else
    match cv.resize m w h with
    | .error e => .error e
    | .ok p => .ok ⟨h.toNat, w.toNat, p⟩

/-- The `cv::Scalar` a `double` converts to in `mat + 1.0` or `mat - 127.5`: the value in
its first component, zero in the others, so only the first channel of a multi-channel
image is shifted. -/
def scalarOfDouble (v : ℚ) (channel : ℕ) : ℚ := if channel = 0 then v else 0

/-- Lines 416-454 of `swapFaceWithModel`: the channel-first output tensor is merged into a
three-channel float image, `(image + 1.0) * 127.5` is applied, the result is converted to
8 bits and its first and third channel are swapped (`COLOR_RGB2BGR`). -/
def tensorToImage (swapped : List ℚ) : Mat ℕ :=
  let merged : Mat ℚ := ⟨128, 128, fun y x k => swapped.getD (k * (128 * 128) + y * 128 + x) 0⟩
  let denormalized : Mat ℚ :=
    ⟨128, 128, fun y x k => (merged.px y x k + scalarOfDouble 1 k) * 127.5⟩
  let uint8 := denormalized.map saturate8
  ⟨128, 128, fun y x c => uint8.px y x (2 - c)⟩

/-- The blob handed to the synthesis network as `target` (lines 305-350). The face is a
three-channel image, so after `convertTo(.., CV_32F)` its type is `CV_32FC3`: the test
`type() == CV_32F` of line 323 fails and the branch of lines 328-331 converts the rescaled
values to 8 bits. -/
def targetBlob (cv : OpenCV) (targetFace : Mat ℕ) : Except Exn (Mat ℚ) :=
  match resizeTo cv targetFace 512 512 with
  | .error e => .error e
  | .ok face512 =>
    let inputFace : Mat ℚ :=
      ⟨face512.rows, face512.cols, fun i j c =>
        ((face512.px i j c : ℚ) - scalarOfDouble 127.5 c) / 127.5⟩
    let blobInput : Mat ℕ := inputFace.map saturate8
    match resizeTo cv blobInput 128 128 with
    | .error e => .error e
    | .ok blob128 => .ok (blobFromImage (blob128.map fun (p : ℕ) => (p : ℚ)) (1 / 255))

/-- The method `swapFaceWithModel` (lines 293-474); every exception is caught inside and
turned into the empty image. -/
def swapFaceWithModel (cv : OpenCV) (inSwapperLoaded : Bool) (targetFace : Mat ℕ)
    (sourceEmbedding : FMat ℚ) : Mat ℕ :=
  if !inSwapperLoaded || sourceEmbedding.empty || targetFace.empty then Mat.nil
  else
    match targetBlob cv targetFace with
    | .error _ => Mat.nil
    | .ok faceBlob =>
      if faceBlob.empty then Mat.nil
      else
        let embeddingInput :=
          if sourceEmbedding.rows ≠ 1 || sourceEmbedding.cols ≠ 512 then sourceEmbedding.reshapeRow
          else sourceEmbedding
        if embeddingInput.cols ≠ 512 then Mat.nil
        else
          match cv.inSwapperForward faceBlob embeddingInput with
          | .error _ => Mat.nil
          | .ok swapped =>
            if swapped.isEmpty then Mat.nil
            else if swapped.length ≠ 3 * 128 * 128 then Mat.nil
            else tensorToImage swapped

/-- The method `restoreFace` (lines 476-484): both branches return a copy. -/
def restoreFace (s : AdvancedFaceSwapper) (swappedFace : Mat ℕ) : Mat ℕ :=
  if !s.enableGFPGAN || !s.gfpganLoaded || swappedFace.empty then swappedFace
  else swappedFace

/-- The kernel side `blurSize` of `generateFaceMask` (lines 525-526);
`FaceSwapper::getFaceMask` (`FaceSwapper.cpp`, lines 269-270) computes the same. -/
def blurSize (width height : ℤ) : ℤ :=
  let b := max 5 (Int.tdiv (min width height) 10)
  if b % 2 = 0 then b + 1 else b

/-- The hull points of `generateFaceMask` (lines 498-517) for at least 5 landmarks. -/
def maskHullPoints (width height : ℤ) (landmarks : List Point2f) : List Point2i :=
  let clamped : List Point2i := landmarks.map fun pt =>
    ⟨max 0 (min (width - 1) (truncInt pt.x)), max 0 (min (height - 1) (truncInt pt.y))⟩
  let margin := Int.tdiv (min width height) 10
  let corners : List Point2i :=
    [⟨margin, margin⟩, ⟨width - margin, margin⟩, ⟨margin, height - margin⟩,
     ⟨width - margin, height - margin⟩]
  let eyeY := ((landmarks.getD 0 ⟨0, 0⟩).y + (landmarks.getD 1 ⟨0, 0⟩).y) / 2
  let foreheadY := eyeY - ((landmarks.getD 2 ⟨0, 0⟩).y - eyeY) * 0.5
  let forehead : List Point2i :=
    if 2 ≤ landmarks.length then [⟨Int.tdiv width 2, truncInt (max 0 foreheadY)⟩] else []
  clamped ++ corners ++ forehead

/-- The method `generateFaceMask` (lines 486-530) for a region of `width` by `height`. -/
def generateFaceMask (cv : OpenCV) (width height : ℤ) (landmarks : List Point2f) :
    Except Exn (Mat ℕ) :=
  let mask : Mat ℕ := ⟨height.toNat, width.toNat, fun _ _ _ => 0⟩
  if landmarks.length < 5 then
    match cv.ellipse mask ⟨Int.tdiv width 2, Int.tdiv height 2⟩
        ⟨truncInt ((Int.tdiv width 2 : ℚ) * 0.9), truncInt ((Int.tdiv height 2 : ℚ) * 0.9)⟩ with
    | .error e => .error e
    | .ok p =>
      match cv.gaussianBlur ⟨mask.rows, mask.cols, p⟩ 21 with
      | .error e => .error e
      | .ok q => .ok ⟨mask.rows, mask.cols, q⟩
  else
    match cv.convexHull (maskHullPoints width height landmarks) with
    | .error e => .error e
    | .ok hull =>
      match cv.fillConvexPoly mask hull with
      | .error e => .error e
      | .ok p =>
        match cv.gaussianBlur ⟨mask.rows, mask.cols, p⟩ (blurSize width height) with
        | .error e => .error e
        | .ok q => .ok ⟨mask.rows, mask.cols, q⟩

/-- The method `blendFace` (lines 532-607). The face has three channels and the mask one,
so the channel conversions of lines 568-581 change nothing; `mask3Channel` is computed
(lines 584-586) and not read again. -/
def blendFace (cv : OpenCV) (swappedFace originalFrame : Mat ℕ) (faceRect : Rect)
    (mask : Mat ℕ) : Except Exn (Mat ℕ) :=
  let result := originalFrame
  if swappedFace.empty || originalFrame.empty || mask.empty then .ok result
  else if faceRect.outOfBounds originalFrame.cols originalFrame.rows then .ok result
  else
    match resizeTo cv swappedFace faceRect.width faceRect.height with
    | .error e => .error e
    | .ok resizedFace =>
      match resizeTo cv mask faceRect.width faceRect.height with
      | .error e => .error e
      | .ok _resizedMask =>
        if faceRect.validRoi result.cols result.rows then
          let faceROI := result.roi faceRect
          let faceFloat : Mat ℚ := faceROI.map fun (p : ℕ) => (p : ℚ)
          let swappedFloat : Mat ℚ := resizedFace.map fun (p : ℕ) => (p : ℚ)
          let blended := Mat.zipWith (fun a b => a * 0.5 + b * 0.5) faceFloat swappedFloat
          .ok (result.setRoi faceRect (blended.map saturate8))
        else .error .cv

/-- One turn of the loop of `stabilizeFace` (lines 621-645) for the history entry
`prevFace`. -/
def stabilizeStep (currentFace : Mat ℕ) (factor : ℚ) (stabilized : Mat ℚ) (prevFace : Mat ℕ) :
    Mat ℚ :=
  if !prevFace.sameSize currentFace then stabilized
  else if prevFace.empty then stabilized
  else
    let prevFloat : Mat ℚ := prevFace.map fun (p : ℕ) => (p : ℚ)
    if !prevFloat.sameSize stabilized then stabilized
    else Mat.zipWith (fun a b => a + b * factor) stabilized prevFloat

/-- The method `stabilizeFace` (lines 609-649). -/
def stabilizeFace (s : AdvancedFaceSwapper) (currentFace : Mat ℕ)
    (_currentLandmarks : List Point2f) : Mat ℕ :=
  if !s.useTemporalStabilization || s.previousFaces.isEmpty || currentFace.empty then currentFace
  else
    let stabilized : Mat ℚ := currentFace.map fun (p : ℕ) => (p : ℚ)
    let weight : ℚ := 1 / ((s.previousFaces.length : ℚ) + 1)
    let stabilized := stabilized.map fun v => v * (1 - s.stabilizationStrength)
    let stabilized :=
      s.previousFaces.foldl (stabilizeStep currentFace (s.stabilizationStrength * weight)) stabilized
    stabilized.map saturate8

/-- The history update of `detectAndSwap` (lines 858-863). -/
def pushHistory (s : AdvancedFaceSwapper) (face : Mat ℕ) (landmarks : List Point2f) :
    AdvancedFaceSwapper :=
  let faces := s.previousFaces ++ [face]
  let marks := s.previousLandmarks ++ [landmarks]
  if MAX_HISTORY < faces.length then
    { s with previousFaces := faces.tail, previousLandmarks := marks.tail }
  else { s with previousFaces := faces, previousLandmarks := marks }

/-- How a stage of the per-face loop ends: with a value, with `continue`, or with an
exception that leaves the loop. -/
inductive Flow (α : Type) where
  | done (a : α)
  | skip
  | raise

/-- The first three landmarks relative to a rectangle (lines 739-760), none when fewer
than three are given. -/
def firstThreeRelative (landmarks : List Point2f) (rect : Rect) : List Point2f :=
  if 3 ≤ landmarks.length then relativeTo rect (landmarks.take 3) else []

/-- The bounds test of lines 771-782 on one point. -/
def pointOutside (pt : Point2f) (rect : Rect) : Bool :=
  decide (pt.x < 0) || decide (pt.y < 0) || decide ((rect.width : ℚ) < pt.x)
    || decide ((rect.height : ℚ) < pt.y)

/-- The geometric fallback of `detectAndSwap` (lines 737-841). The inner handler catches a
`cv::Exception` only; the extraction of line 799 stands outside it. -/
def geometricFallback (cv : OpenCV) (s : AdvancedFaceSwapper) (faceRect : Rect)
    (targetLandmarks : List Point2f) : Flow (Mat ℕ) :=
  let sourcePoints := firstThreeRelative s.sourceLandmarks s.sourceFaceRect
  let targetPoints := firstThreeRelative targetLandmarks faceRect
  if sourcePoints.length ≠ 3 || targetPoints.length ≠ 3 then .skip
  else
    let sourceValid := sourcePoints.all fun pt => !pointOutside pt s.sourceFaceRect
    let targetValid := targetPoints.all fun pt => !pointOutside pt faceRect
    if !sourceValid || !targetValid then .skip
    else if s.sourceFaceRect.outOfBounds s.sourceFaceImage.cols s.sourceFaceImage.rows then .skip
    else if !s.sourceFaceRect.validRoi s.sourceFaceImage.cols s.sourceFaceImage.rows then .raise
    else
      let sourceROI := s.sourceFaceImage.roi s.sourceFaceRect
      if sourceROI.empty then .skip
      else
        match cv.getAffineTransform sourcePoints targetPoints with
        | .error .cv => .skip
        | .error .other => .raise
        | .ok none => .skip
        | .ok (some transform) =>
          match cv.warpAffine sourceROI transform faceRect.width faceRect.height with
          | .error .cv => .skip
          | .error .other => .raise
          | .ok p =>
            let tempSwapped : Mat ℕ := ⟨faceRect.height.toNat, faceRect.width.toNat, p⟩
            if tempSwapped.empty then .skip else .done tempSwapped

/-- The condition of line 712 under which `swapFaceWithModel` is called. -/
def modelPathTaken (s : AdvancedFaceSwapper) : Bool :=
  s.inSwapperLoaded && s.arcFaceLoaded && !s.sourceFaceEmbedding.empty

/-- Stage 3 of `detectAndSwap` (lines 706-841): the model path when its condition holds
and its result is not empty, the geometric fallback otherwise. -/
def synthesize (cv : OpenCV) (s : AdvancedFaceSwapper) (faceRect : Rect)
    (targetLandmarks : List Point2f) (targetFaceAligned : Mat ℕ) : Flow (Mat ℕ) :=
  let swappedFace : Mat ℕ :=
    if modelPathTaken s then
      swapFaceWithModel cv s.inSwapperLoaded targetFaceAligned s.sourceFaceEmbedding
    else Mat.nil
  let useModelSwap := modelPathTaken s && !swappedFace.empty
  if !useModelSwap then geometricFallback cv s faceRect targetLandmarks
  else .done swappedFace

/-- The object, the frame and whether an exception left the loop. -/
structure Step where
  self : AdvancedFaceSwapper
  frame : Mat ℕ
  raised : Bool

/-- Stage 5 of the loop body (lines 853-864): the face is stabilized and the result is
pushed onto the history, when stabilization is switched on. -/
def stabilizationStage (s : AdvancedFaceSwapper) (swappedFace : Mat ℕ)
    (targetLandmarks : List Point2f) : AdvancedFaceSwapper × Mat ℕ :=
  if s.useTemporalStabilization then
    let stabilized := stabilizeFace s swappedFace targetLandmarks
    (pushHistory s stabilized targetLandmarks, stabilized)
  else (s, swappedFace)

/-- Stages 4 to 7 of the loop body (lines 843-880) for a synthesized face. -/
def finishFace (cv : OpenCV) (s : AdvancedFaceSwapper) (frame : Mat ℕ) (faceRect : Rect)
    (targetLandmarks : List Point2f) (swappedFace : Mat ℕ) : Step :=
  if swappedFace.empty then ⟨s, frame, false⟩
  else
    let restored := if s.enableGFPGAN && s.gfpganLoaded then restoreFace s swappedFace else swappedFace
    let staged := stabilizationStage s restored targetLandmarks
    match generateFaceMask cv faceRect.width faceRect.height (relativeTo faceRect targetLandmarks) with
    | .error _ => ⟨staged.1, frame, true⟩
    | .ok mask =>
      if mask.empty then ⟨staged.1, frame, false⟩
      else
        match blendFace cv staged.2 frame faceRect mask with
        | .error _ => ⟨staged.1, frame, true⟩
        | .ok blended => ⟨staged.1, blended, false⟩

/-- The body of the loop of `detectAndSwap` for face `i` (lines 676-880). -/
def processFace (cv : OpenCV) (processedFrame : Mat ℕ) (faces : Faces) (i : ℕ)
    (s : AdvancedFaceSwapper) (frame : Mat ℕ) : Step :=
  let faceRect := faceRectOf processedFrame.cols processedFrame.rows
    (faces.at i 0) (faces.at i 1) (faces.at i 2) (faces.at i 3)
  if faceRect.width ≤ 0 ∨ faceRect.height ≤ 0 then ⟨s, frame, false⟩
  else
    let targetLandmarks := extractLandmarks faces i
    if targetLandmarks.isEmpty then ⟨s, frame, false⟩
    else
      match alignFace cv processedFrame targetLandmarks faceRect 512 with
      | .error _ => ⟨s, frame, true⟩
      | .ok targetFaceAligned =>
        if targetFaceAligned.empty then ⟨s, frame, false⟩
        else
          let _targetEmbedding : FMat ℚ :=
            if s.arcFaceLoaded then
              extractFaceEmbedding cv.resize cv.arcFaceForward cv.norm s.arcFaceLoaded targetFaceAligned
            else FMat.nil
          match synthesize cv s faceRect targetLandmarks targetFaceAligned with
          | .skip => ⟨s, frame, false⟩
          | .raise => ⟨s, frame, true⟩
          | .done swappedFace => finishFace cv s frame faceRect targetLandmarks swappedFace

/-- The loop of `detectAndSwap` (line 675) over the face indices still to visit; an
exception ends it (the handlers of lines 882-888 stand outside the loop). -/
def faceLoop (cv : OpenCV) (processedFrame : Mat ℕ) (faces : Faces) :
    List ℕ → AdvancedFaceSwapper → Mat ℕ → Step
  | [], s, frame => ⟨s, frame, false⟩
  | i :: rest, s, frame =>
    let step := processFace cv processedFrame faces i s frame
    if step.raised then step else faceLoop cv processedFrame faces rest step.self step.frame

/-- The method `detectAndSwap` (lines 655-889): the object and the frame afterwards. -/
def detectAndSwap (cv : OpenCV) (s : AdvancedFaceSwapper) (frame : Mat ℕ) :
    AdvancedFaceSwapper × Mat ℕ :=
  if frame.empty || !s.faceDetectorLoaded || !s.sourceFaceLoaded then (s, frame)
  else
    match preprocessFrame cv frame with
    | .error _ => (s, frame)
    | .ok processedFrame =>
      match cv.detect processedFrame with
      | .error _ => (s, frame)
      | .ok faces =>
        let step := faceLoop cv processedFrame faces (List.range faces.length)
          { s with lastFaceCount := faces.length } frame
        (step.self, step.frame)

/-- The method `loadSourceFace(const cv::Mat&)` (lines 105-157): the object afterwards,
and the value returned or the exception that leaves the method (it has no handler). The
fields are assigned in the order of the source: the image before the detection, the
rectangle and the landmarks before the landmark test. -/
def loadSourceFace (cv : OpenCV) (s : AdvancedFaceSwapper) (image : Mat ℕ) :
    AdvancedFaceSwapper × Except Exn Bool :=
  if image.empty || !s.faceDetectorLoaded then (s, .ok false)
  else
    let s1 := { s with sourceFaceImage := image }
    match cv.detect image with
    | .error e => (s1, .error e)
    | .ok faces =>
      if faces.length = 0 then (s1, .ok false)
      else
        let s2 := { s1 with
          sourceFaceRect := faceRectOf image.cols image.rows
            (faces.at 0 0) (faces.at 0 1) (faces.at 0 2) (faces.at 0 3) }
        let s3 := { s2 with sourceLandmarks := extractLandmarks faces 0 }
        if s3.sourceLandmarks.isEmpty then (s3, .ok false)
        else
          match alignFace cv s3.sourceFaceImage s3.sourceLandmarks s3.sourceFaceRect 512 with
          | .error e => (s3, .error e)
          | .ok aligned =>
            let s4 := { s3 with sourceFaceAligned := aligned }
            let s5 :=
              if s4.arcFaceLoaded && !aligned.empty then
                { s4 with
                  sourceFaceEmbedding :=
                    extractFaceEmbedding cv.resize cv.arcFaceForward cv.norm s4.arcFaceLoaded
                      aligned }
              else s4
            ({ s5 with sourceFaceLoaded := true }, .ok true)

/-- The method `loadFaceDetectionModel` (lines 23-36) for the outcome of
`FaceDetectorYN::create`: a detector, an empty pointer (`.ok false`) or an exception, which
leaves the field as it was. -/
def loadFaceDetectionModel (s : AdvancedFaceSwapper) (created : Except Exn Bool) :
    AdvancedFaceSwapper × Bool :=
  match created with
  | .ok present => ({ s with faceDetectorLoaded := present }, present)
  | .error _ => (s, false)

/-- The accessor `isSourceFaceLoaded` (`AdvancedFaceSwapper.hpp`, line 27). -/
def isSourceFaceLoaded (s : AdvancedFaceSwapper) : Bool := s.sourceFaceLoaded

/-- The accessor `getFaceCount` (`AdvancedFaceSwapper.hpp`, line 33). -/
def getFaceCount (s : AdvancedFaceSwapper) : ℤ := s.lastFaceCount

/-- The method `setBlendStrength` (lines 651-653). -/
def setBlendStrength (s : AdvancedFaceSwapper) (strength : ℚ) : AdvancedFaceSwapper :=
  { s with blendStrength := max 0 (min 1 strength) }

/-- The method `setEnableGFPGAN` (`AdvancedFaceSwapper.hpp`, line 39). -/
def setEnableGFPGAN (s : AdvancedFaceSwapper) (enable : Bool) : AdvancedFaceSwapper :=
  { s with enableGFPGAN := enable }

/-- The method `setTemporalStabilization` (`AdvancedFaceSwapper.hpp`, line 42). -/
def setTemporalStabilization (s : AdvancedFaceSwapper) (enable : Bool) : AdvancedFaceSwapper :=
  { s with useTemporalStabilization := enable }

/-- The method `setStabilizationStrength` (`AdvancedFaceSwapper.hpp`, line 45). -/
def setStabilizationStrength (s : AdvancedFaceSwapper) (strength : ℚ) : AdvancedFaceSwapper :=
  { s with stabilizationStrength := max 0 (min 1 strength) }

/-- The method `loadGFPGANModel` (lines 82-94): the object afterwards and the value
returned. The path is not read. -/
def loadGFPGANModel (s : AdvancedFaceSwapper) : AdvancedFaceSwapper × Bool :=
  ({ s with gfpganLoaded := false }, false)

/-! ## The landmark swapper of `FaceSwapper.cpp` -/

/-- The fields of `FaceSwapper` (`FaceSwapper.hpp`); the detector is in `OpenCV`, its
presence here. -/
structure FaceSwapper where
  faceDetectorLoaded : Bool
  sourceFaceImage : Mat ℕ
  sourceLandmarks : List Point2f
  sourceFaceRect : Rect
  sourceFaceLoaded : Bool
  blendStrength : ℚ
  lastFaceCount : ℤ

/-- The constructor (`FaceSwapper.cpp`, lines 6-11). -/
def FaceSwapper.new : FaceSwapper where
  faceDetectorLoaded := false
  sourceFaceImage := Mat.nil
  sourceLandmarks := []
  sourceFaceRect := ⟨0, 0, 0, 0⟩
  sourceFaceLoaded := false
  blendStrength := 0.95
  lastFaceCount := 0

/-- The method `FaceSwapper::extractLandmarks` (`FaceSwapper.cpp`, lines 84-101). -/
def FaceSwapper.extractLandmarks (faces : Faces) (faceIndex : ℕ) : List Point2f :=
  if faces.length ≤ faceIndex then []
  else
    [⟨faces.at faceIndex 6, faces.at faceIndex 7⟩,
     ⟨faces.at faceIndex 4, faces.at faceIndex 5⟩,
     ⟨faces.at faceIndex 8, faces.at faceIndex 9⟩,
     ⟨faces.at faceIndex 12, faces.at faceIndex 13⟩,
     ⟨faces.at faceIndex 10, faces.at faceIndex 11⟩]

/-- The method `FaceSwapper::setBlendStrength` (`FaceSwapper.cpp`, lines 103-105). -/
def FaceSwapper.setBlendStrength (s : FaceSwapper) (strength : ℚ) : FaceSwapper :=
  { s with blendStrength := max 0 (min 1 strength) }

/-- The method `FaceSwapper::getFacePoints` (`FaceSwapper.cpp`, lines 209-223): the first
three landmarks minus the origin of the source rectangle, whatever landmarks are given. -/
def FaceSwapper.getFacePoints (s : FaceSwapper) (landmarks : List Point2f) : List Point2f :=
  if 3 ≤ landmarks.length then
    (landmarks.take 3).map fun pt => ⟨pt.x - s.sourceFaceRect.x, pt.y - s.sourceFaceRect.y⟩
  else []

/-- The source points and the target points `FaceSwapper::swapFace` hands to
`cv::getAffineTransform` (`FaceSwapper.cpp`, lines 153-163): both lists come from
`getFacePoints`, and the target points are then moved by the target rectangle's origin. -/
def FaceSwapper.affinePoints (s : FaceSwapper) (targetFaceRect : Rect)
    (targetLandmarks : List Point2f) : List Point2f × List Point2f :=
  let sourcePoints := s.getFacePoints s.sourceLandmarks
  let targetPoints := s.getFacePoints targetLandmarks
  let targetPoints := targetPoints.map fun pt =>
    (⟨pt.x - targetFaceRect.x, pt.y - targetFaceRect.y⟩ : Point2f)
  (sourcePoints, targetPoints)

/-- The method `FaceSwapper::getFaceMask` (`FaceSwapper.cpp`, lines 225-274): statement for
statement the method `generateFaceMask` of `AdvancedFaceSwapper.cpp`. -/
def FaceSwapper.getFaceMask (cv : OpenCV) (width height : ℤ) (landmarks : List Point2f) :
    Except Exn (Mat ℕ) :=
  generateFaceMask cv width height landmarks

/-- The image `cv::Mat::ones(size, type)` for a three-channel type: the initializer is the
`cv::Scalar` of 1, so the first channel holds ones and the others hold zeros. -/
def onesImage (rows cols : ℕ) : Mat ℚ := ⟨rows, cols, fun _ _ c => scalarOfDouble 1 c⟩

/-- Lines 189-206 of `FaceSwapper::swapFace`: the 8-bit image `blendedFace` of
`cv::addWeighted`, the mask as a three-channel float image scaled by 1/255, the image
`invMask`, and the 8-bit conversion of `resultFloat`. -/
def FaceSwapper.composite (blendStrength : ℚ) (warpedSource targetFaceROI mask : Mat ℕ) :
    Mat ℕ :=
  let blendedFace : Mat ℕ := Mat.zipWith
    (fun (a b : ℕ) => saturate8 ((a : ℚ) * blendStrength + (b : ℚ) * (1 - blendStrength) + 0))
    warpedSource targetFaceROI
  let mask3Channel : Mat ℚ := ⟨mask.rows, mask.cols, fun i j _ => (mask.px i j 0 : ℚ) * (1 / 255)⟩
  let blendedFaceFloat : Mat ℚ := blendedFace.map fun (p : ℕ) => (p : ℚ)
  let targetFaceFloat : Mat ℚ := targetFaceROI.map fun (p : ℕ) => (p : ℚ)
  let invMask : Mat ℚ :=
    Mat.zipWith (fun a b => a - b) (onesImage mask3Channel.rows mask3Channel.cols) mask3Channel
  let resultFloat : Mat ℚ :=
    Mat.zipWith (fun a b => a + b)
      (Mat.zipWith (fun a b => a * b) blendedFaceFloat mask3Channel)
      (Mat.zipWith (fun a b => a * b) targetFaceFloat invMask)
  resultFloat.map saturate8

/-- The method `FaceSwapper::swapFace` (`FaceSwapper.cpp`, lines 146-207): the frame
afterwards, or the exception that leaves the method (it has no handler). The extractions
`sourceFaceImage(sourceFaceRect)`, `fullMask(targetFaceRect)` and
`targetFrame(targetFaceRect)` raise for a rectangle that is not inside the image, and
`cv::warpAffine` raises for the empty matrix. -/
def FaceSwapper.swapFace (cv : OpenCV) (s : FaceSwapper) (targetFrame : Mat ℕ)
    (targetFaceRect : Rect) (targetLandmarks : List Point2f) : Except Exn (Mat ℕ) :=
  if s.sourceLandmarks.length ≠ 5 || targetLandmarks.length ≠ 5 then .ok targetFrame
  else
    let points := s.affinePoints targetFaceRect targetLandmarks
    match cv.getAffineTransform points.1 points.2 with
    | .error e => .error e
    | .ok transform =>
      if !s.sourceFaceRect.validRoi s.sourceFaceImage.cols s.sourceFaceImage.rows then .error .cv
      else
        let sourceFaceROI := s.sourceFaceImage.roi s.sourceFaceRect
        match transform with
        | none => .error .cv
        | some transform =>
          match cv.warpAffine sourceFaceROI transform targetFaceRect.width targetFaceRect.height with
          | .error e => .error e
          | .ok p =>
            let warpedSource : Mat ℕ :=
              ⟨targetFaceRect.height.toNat, targetFaceRect.width.toNat, p⟩
            match FaceSwapper.getFaceMask cv targetFaceRect.width targetFaceRect.height
                (relativeTo targetFaceRect targetLandmarks) with
            | .error e => .error e
            | .ok mask =>
              if !targetFaceRect.validRoi targetFrame.cols targetFrame.rows then .error .cv
              else
                let targetFaceROI := targetFrame.roi targetFaceRect
                .ok (targetFrame.setRoi targetFaceRect
                  (FaceSwapper.composite s.blendStrength warpedSource targetFaceROI mask))

/-! ## Statements about the pipeline -/

/-- The stabilizer weighting as the specification words it: the current sample weighted
`1 - α`, plus every history entry of the current face's size weighted `α / (n + 1)`, where
`n` counts all history entries. -/
def stabilizerWeighting (α : ℚ) (history : List (Mat ℕ)) (currentFace : Mat ℕ) (i j c : ℕ) : ℚ :=
  (1 - α) * (currentFace.px i j c : ℚ)
    + ((history.filter fun entry => entry.sameSize currentFace).map
        fun entry => α / ((history.length : ℚ) + 1) * (entry.px i j c : ℚ)).sum

/-- The history invariant: at most `MAX_HISTORY` faces, and as many landmark sets. -/
def HistoryBounded (s : AdvancedFaceSwapper) : Prop :=
  s.previousFaces.length ≤ MAX_HISTORY ∧ s.previousLandmarks.length = s.previousFaces.length

/-- The objects a program can hold: the constructed one, and what `detectAndSwap` or any
other method makes of one. `detectAndSwap` is the only method that writes the history
(the loaders, `loadSourceFace` and the setters do not), so `configure` stands for every
other call. -/
inductive Reachable (cv : OpenCV) : AdvancedFaceSwapper → Prop where
  | init : Reachable cv AdvancedFaceSwapper.new
  | configure (s s' : AdvancedFaceSwapper) : Reachable cv s →
      s'.previousFaces = s.previousFaces → s'.previousLandmarks = s.previousLandmarks →
      Reachable cv s'
  | detectAndSwap (s : AdvancedFaceSwapper) (frame : Mat ℕ) : Reachable cv s →
      Reachable cv (detectAndSwap cv s frame).1

/-- The object after `detectAndSwap` has been called on each frame of the list. -/
def runFrames (cv : OpenCV) (s : AdvancedFaceSwapper) : List (Mat ℕ) → AdvancedFaceSwapper
  | [] => s
  | frame :: rest => runFrames cv (detectAndSwap cv s frame).1 rest

/-- The faces stage 5 puts out when it is given the faces of the list one after another,
each output being pushed onto the history. -/
def feedFaces (s : AdvancedFaceSwapper) : List (Mat ℕ) → List (Mat ℕ)
  | [] => []
  | face :: rest =>
    let staged := stabilizationStage s face []
    staged.2 :: feedFaces staged.1 rest

/-- The object with another source embedding and another embedding-model flag. -/
def withEmbedder (s : AdvancedFaceSwapper) (embedding : FMat ℚ) (loaded : Bool) :
    AdvancedFaceSwapper :=
  { s with sourceFaceEmbedding := embedding, arcFaceLoaded := loaded }

/-- A loop step whose object has another embedding and embedding-model flag. -/
def Step.withEmbedder (step : Step) (embedding : FMat ℚ) (loaded : Bool) : Step :=
  ⟨FaceSwap.withEmbedder step.self embedding loaded, step.frame, step.raised⟩

/-- Whether a call ended with an exception. -/
def raises {α : Type} : Except Exn α → Bool
  | .error _ => true
  | .ok _ => false

/-- One sample of a returned image, none when the call raised. -/
def sampleOf (r : Except Exn (Mat ℕ)) (i j c : ℕ) : Option ℕ :=
  match r with
  | .ok m => some (m.px i j c)
  | .error _ => none

/-- The value a call returned, none when it raised. -/
def returned (r : Except Exn Bool) : Option Bool :=
  match r with
  | .ok b => some b
  | .error _ => none

/-- Whether a stage ended with a value. -/
def Flow.isDone {α : Type} : Flow α → Bool
  | .done _ => true
  | .skip => false
  | .raise => false

/-- The object after `detectAndSwap` has been called on each frame of the list, and the
frames as the calls left them. -/
def runFramesOut (cv : OpenCV) (s : AdvancedFaceSwapper) :
    List (Mat ℕ) → AdvancedFaceSwapper × List (Mat ℕ)
  | [] => (s, [])
  | frame :: rest =>
    let now := detectAndSwap cv s frame
    let later := runFramesOut cv now.1 rest
    (later.1, now.2 :: later.2)

/-- A point of the closed rectangle at the origin: `0 ≤ x ≤ width` and `0 ≤ y ≤ height`,
the points the test of lines 771-782 lets pass. -/
def pointWithin (pt : Point2f) (rect : Rect) : Prop :=
  0 ≤ pt.x ∧ pt.x ≤ (rect.width : ℚ) ∧ 0 ≤ pt.y ∧ pt.y ≤ (rect.height : ℚ)

/-- The blur kernel side as the specification words it: with `m` the smaller dimension,
`max(5, m div 10)` when that is odd and one more otherwise. -/
def kernelSide (width height : ℤ) : ℤ :=
  if max 5 (min width height / 10) % 2 = 1 then max 5 (min width height / 10)
  else max 5 (min width height / 10) + 1

/-- The object with another restoration switch and another blend strength. -/
def retuned (s : AdvancedFaceSwapper) (enable : Bool) (strength : ℚ) : AdvancedFaceSwapper :=
  { s with enableGFPGAN := enable, blendStrength := strength }

/-- A loop step whose object has another restoration switch and blend strength. -/
def Step.retuned (step : Step) (enable : Bool) (strength : ℚ) : Step :=
  ⟨FaceSwap.retuned step.self enable strength, step.frame, step.raised⟩

/-- A call of one of the two strength setters. -/
inductive SetterCall where
  | blend (strength : ℚ)
  | stabilization (strength : ℚ)

/-- The object after the setter calls of the list, in order. -/
def applySetters (s : AdvancedFaceSwapper) : List SetterCall → AdvancedFaceSwapper
  | [] => s
  | .blend strength :: rest => applySetters (setBlendStrength s strength) rest
  | .stabilization strength :: rest => applySetters (setStabilizationStrength s strength) rest

/-- The exception a call ended with, none when it returned. -/
def failure {α : Type} : Except Exn α → Option Exn
  | .error e => some e
  | .ok _ => none

/-- The largest of the current sample and the samples of the history entries of the current
face's size at one position. -/
def sampleMax (history : List (Mat ℕ)) (currentFace : Mat ℕ) (i j c : ℕ) : ℕ :=
  ((history.filter fun entry => entry.sameSize currentFace).map fun entry => entry.px i j c).foldr
    max (currentFace.px i j c)

/-- The rectangle `detectAndSwap` computes for row `k` of the detector output. -/
def faceRectAt (processedFrame : Mat ℕ) (faces : Faces) (k : ℕ) : Rect :=
  faceRectOf processedFrame.cols processedFrame.rows
    (faces.at k 0) (faces.at k 1) (faces.at k 2) (faces.at k 3)

/-- The global-ratio compositing as the specification words it: the mask weight `m` times
the blend of strength `s`, plus `1 - m` times the original sample. -/
def globalRatioComposite (s : ℚ) (mask warped original : ℕ) : ℚ :=
  (mask : ℚ) / 255 * (s * warped + (1 - s) * original) + (1 - (mask : ℚ) / 255) * original

/-! ## Concrete inputs

A library instance and inputs on which the definitions above are evaluated. -/

/-- The L2 norm of a rational vector whose sum of squares is a rational square. -/
def exactNorm (v : List ℚ) : ℚ := Rat.sqrt (sumSq v)

/-- An embedding network whose output is the zero vector of 512 components. -/
def zeroNet (_blob : Mat ℚ) : Except Exn (List (FMat ℚ)) := .ok [⟨1, 512, List.replicate 512 0⟩]

/-- An embedding network whose output is the vector (3, 4). -/
def smallNet (_blob : Mat ℚ) : Except Exn (List (FMat ℚ)) := .ok [⟨1, 2, [3, 4]⟩]

/-- An image of one colour. -/
def constImage (rows cols value : ℕ) : Mat ℕ := ⟨rows, cols, fun _ _ _ => value⟩

/-- A library instance: the detector reports `faces`, every warp yields samples of value
200, the other image routines leave the samples as they are. -/
def cvDemo (faces : Faces) : OpenCV where
  clahe := fun m => .ok m.px
  detect := fun _ => .ok faces
  estimateAffinePartial2D := fun _ _ => .ok (some ⟨1, 0, 0, 0, 1, 0⟩)
  getAffineTransform := fun _ _ => .ok (some ⟨1, 0, 0, 0, 1, 0⟩)
  warpAffine := fun _ _ _ _ => .ok fun _ _ _ => 200
  resize := fun m _ _ => .ok m.px
  ellipse := fun _ _ _ => .ok fun _ _ _ => 255
  convexHull := fun pts => .ok pts
  fillConvexPoly := fun _ _ => .ok fun _ _ _ => 255
  gaussianBlur := fun m _ => .ok m.px
  arcFaceForward := fun _ => .ok []
  inSwapperForward := fun _ _ => .ok []
  norm := fun _ => 0

/-- An object with a detector and a registered source face of 50 by 50, no networks. -/
def swapperDemo : AdvancedFaceSwapper :=
  { AdvancedFaceSwapper.new with
    faceDetectorLoaded := true
    sourceFaceLoaded := true
    sourceFaceImage := constImage 50 50 200
    sourceFaceRect := ⟨0, 0, 50, 50⟩
    sourceLandmarks := [⟨10, 10⟩, ⟨30, 10⟩, ⟨20, 20⟩, ⟨10, 30⟩, ⟨30, 30⟩] }

/-- The object `swapperDemo` with a history of one image of 2 by 2 and one of 1 by 1. -/
def mixedHistoryDemo : AdvancedFaceSwapper :=
  { swapperDemo with
    previousFaces := [constImage 2 2 50, constImage 1 1 200]
    previousLandmarks := [[], []] }

/-- A detector row whose box starts left of the frame and is wider than it. -/
def wideRow : List ℚ := [-10, 0, 105, 50, 30, 10, 10, 10, 20, 20, 30, 30, 10, 30, 1]

/-- A detector row with an empty box, which the loop skips. -/
def emptyRow : List ℚ := [0, 0, 0, 0, 0, 0, 0, 0, 0, 0, 0, 0, 0, 0, 1]

/-- A detector row for a face at (10, 10) of 20 by 20 with its landmarks inside. -/
def goodRow : List ℚ := [10, 10, 20, 20, 25, 15, 15, 15, 20, 20, 25, 25, 15, 25, 1]

/-- The row `goodRow` with the left eye moved to (30, 15): relative to the rectangle its
x equals the rectangle's width. -/
def edgeRow : List ℚ := [10, 10, 20, 20, 25, 15, 30, 15, 20, 20, 25, 25, 15, 25, 1]

/-- The row `goodRow` with the left eye moved to (31, 15), right of the rectangle. -/
def outsideRow : List ℚ := [10, 10, 20, 20, 25, 15, 31, 15, 20, 20, 25, 25, 15, 25, 1]

/-- The library `cvDemo` with a similarity-transform estimation that finds no transform. -/
def cvNoAlign (faces : Faces) : OpenCV :=
  { cvDemo faces with estimateAffinePartial2D := fun _ _ => .ok none }

/-- The library `cvDemo` with the embedding network `smallNet` and the norm `exactNorm`. -/
def cvSmallNet (faces : Faces) : OpenCV :=
  { cvDemo faces with arcFaceForward := smallNet, norm := exactNorm }

/-- A unit vector of 512 components. -/
def unitEmbedding (k : ℕ) : FMat ℚ :=
  ⟨1, 512, (List.range 512).map fun i => if i = k then 1 else 0⟩

/-- The object `swapperDemo` with the embedding model loaded and a source embedding. -/
def registeredDemo (embedding : FMat ℚ) : AdvancedFaceSwapper :=
  { swapperDemo with arcFaceLoaded := true, sourceFaceEmbedding := embedding }

/-- The constructed object after the detector has been loaded. -/
def freshWithDetector : AdvancedFaceSwapper :=
  (loadFaceDetectionModel AdvancedFaceSwapper.new (.ok true)).1

/-- Five landmarks inside the rectangle (8, 8, 5, 5). -/
def fivePoints : List Point2f := [⟨9, 9⟩, ⟨11, 9⟩, ⟨10, 10⟩, ⟨9, 11⟩, ⟨11, 11⟩]

/-- The library `cvDemo` with a polygon fill that covers no sample, so every mask is zero
everywhere. -/
def cvNoFill : OpenCV :=
  { cvDemo [] with fillConvexPoly := fun m _ => .ok m.px }

/-- A landmark swapper with a registered source face: the rectangle (5, 7, 40, 40) of an
image of 50 by 50 with samples of 60. -/
def landmarkSwapperDemo : FaceSwapper :=
  { FaceSwapper.new with
    faceDetectorLoaded := true
    sourceFaceLoaded := true
    sourceFaceImage := constImage 50 50 60
    sourceFaceRect := ⟨5, 7, 40, 40⟩
    sourceLandmarks := [⟨15, 17⟩, ⟨35, 17⟩, ⟨25, 27⟩, ⟨15, 37⟩, ⟨35, 37⟩] }

/-- The landmarks of the detector row `goodRow`. -/
def goodLandmarks : List Point2f := extractLandmarks [goodRow] 0

/-! ## Lemmas -/

/-- Two images have the same size when their columns and rows agree. -/
theorem Mat.sameSize_iff {α β : Type} (a : Mat α) (b : Mat β) :
    a.sameSize b = true ↔ a.cols = b.cols ∧ a.rows = b.rows := by
  simp [Mat.sameSize]

/-- A history entry of another size leaves the running sum as it is. -/
theorem stabilizeStep_of_mismatch (cur : Mat ℕ) (f : ℚ) (acc : Mat ℚ) (prev : Mat ℕ)
    (h : prev.sameSize cur = false) : stabilizeStep cur f acc prev = acc := by
  simp [stabilizeStep, h]

/-- A history entry of the current size is added with the loop's factor. -/
theorem stabilizeStep_of_match (cur : Mat ℕ) (f : ℚ) (acc : Mat ℚ) (prev : Mat ℕ)
    (hcur : cur.empty = false) (hacc : acc.rows = cur.rows ∧ acc.cols = cur.cols)
    (h : prev.sameSize cur = true) :
    stabilizeStep cur f acc prev
      = ⟨acc.rows, acc.cols, fun i j c => acc.px i j c + (prev.px i j c : ℚ) * f⟩ := by
  have hs := (Mat.sameSize_iff prev cur).1 h
  have hpe : prev.empty = false := by
    simpa [Mat.empty, hs.1, hs.2] using hcur
  have hss : (prev.map fun (p : ℕ) => (p : ℚ)).sameSize acc = true := by
    simp [Mat.sameSize, Mat.map, hs.1, hs.2, hacc.1, hacc.2]
  unfold stabilizeStep
  simp only [h, hpe, hss, Bool.not_true, Bool.false_eq_true, ↓reduceIte]
  rfl

/-- The loop of `stabilizeFace` adds the entries of the current size, each times the factor. -/
theorem stabilize_fold (cur : Mat ℕ) (f : ℚ) (hcur : cur.empty = false) :
    ∀ (history : List (Mat ℕ)) (acc : Mat ℚ), acc.rows = cur.rows ∧ acc.cols = cur.cols →
      (history.foldl (stabilizeStep cur f) acc).rows = cur.rows
      ∧ (history.foldl (stabilizeStep cur f) acc).cols = cur.cols
      ∧ ∀ i j c, (history.foldl (stabilizeStep cur f) acc).px i j c
          = acc.px i j c
            + ((history.filter fun entry => entry.sameSize cur).map
                fun entry => (entry.px i j c : ℚ) * f).sum := by
  intro history
  induction history with
  | nil => intro acc hacc; simp [hacc.1, hacc.2]
  | cons prev rest ih =>
    intro acc hacc
    rw [List.foldl_cons]
    by_cases h : prev.sameSize cur = true
    · rw [stabilizeStep_of_match cur f acc prev hcur hacc h]
      obtain ⟨h1, h2, h3⟩ := ih ⟨acc.rows, acc.cols, fun i j c => acc.px i j c + (prev.px i j c : ℚ) * f⟩ hacc
      refine ⟨h1, h2, fun i j c => ?_⟩
      rw [h3 i j c]
      simp [List.filter_cons, h, add_assoc]
    · have h' : prev.sameSize cur = false := by simpa using h
      rw [stabilizeStep_of_mismatch cur f acc prev h']
      obtain ⟨h1, h2, h3⟩ := ih acc hacc
      refine ⟨h1, h2, fun i j c => ?_⟩
      rw [h3 i j c]
      simp [List.filter_cons, h']

/-- The history update keeps the history invariant. -/
theorem pushHistory_bounded (s : AdvancedFaceSwapper) (face : Mat ℕ) (lm : List Point2f)
    (h : HistoryBounded s) : HistoryBounded (pushHistory s face lm) := by
  obtain ⟨h1, h2⟩ := h
  unfold HistoryBounded MAX_HISTORY at *
  unfold pushHistory
  simp only [MAX_HISTORY]
  split_ifs with hc
  · simp only [List.length_tail, List.length_append, List.length_singleton] at hc ⊢
    omega
  · simp only [List.length_append, List.length_singleton] at hc ⊢
    omega

/-- Stage 5 keeps the history invariant. -/
theorem stabilizationStage_bounded (s : AdvancedFaceSwapper) (face : Mat ℕ) (lm : List Point2f)
    (h : HistoryBounded s) : HistoryBounded (stabilizationStage s face lm).1 := by
  unfold stabilizationStage
  split
  · exact pushHistory_bounded s _ lm h
  · exact h

/-- Stages 4 to 7 leave the object as it is or as stage 5 made it. -/
theorem finishFace_self (cv : OpenCV) (s : AdvancedFaceSwapper) (frame : Mat ℕ) (faceRect : Rect)
    (lm : List Point2f) (face : Mat ℕ) :
    (finishFace cv s frame faceRect lm face).self = s
    ∨ ∃ restored, (finishFace cv s frame faceRect lm face).self = (stabilizationStage s restored lm).1 := by
  unfold finishFace
  split
  · exact Or.inl rfl
  · right
    refine ⟨if s.enableGFPGAN && s.gfpganLoaded then restoreFace s face else face, ?_⟩
    simp only
    split
    · rfl
    · split
      · rfl
      · split <;> rfl

/-- The loop body leaves the object as it is or as stage 5 made it. -/
theorem processFace_self (cv : OpenCV) (pf : Mat ℕ) (faces : Faces) (i : ℕ)
    (s : AdvancedFaceSwapper) (frame : Mat ℕ) :
    (processFace cv pf faces i s frame).self = s
    ∨ ∃ restored lm, (processFace cv pf faces i s frame).self = (stabilizationStage s restored lm).1 := by
  unfold processFace
  simp only
  split
  · exact Or.inl rfl
  · split
    · exact Or.inl rfl
    · split
      · exact Or.inl rfl
      · split
        · exact Or.inl rfl
        · split
          · exact Or.inl rfl
          · exact Or.inl rfl
          · rcases finishFace_self cv s frame _ _ _ with h | ⟨r, h⟩
            · exact Or.inl h
            · exact Or.inr ⟨r, _, h⟩

/-- The loop body keeps the history invariant, however it ends. -/
theorem processFace_bounded (cv : OpenCV) (pf : Mat ℕ) (faces : Faces) (i : ℕ)
    (s : AdvancedFaceSwapper) (frame : Mat ℕ) (h : HistoryBounded s) :
    HistoryBounded (processFace cv pf faces i s frame).self := by
  rcases processFace_self cv pf faces i s frame with e | ⟨r, lm, e⟩
  · rw [e]; exact h
  · rw [e]; exact stabilizationStage_bounded s r lm h

/-- The loop keeps the history invariant. -/
theorem faceLoop_bounded (cv : OpenCV) (pf : Mat ℕ) (faces : Faces) :
    ∀ (todo : List ℕ) (s : AdvancedFaceSwapper) (frame : Mat ℕ), HistoryBounded s →
      HistoryBounded (faceLoop cv pf faces todo s frame).self := by
  intro todo
  induction todo with
  | nil => intro s frame h; exact h
  | cons i rest ih =>
    intro s frame h
    unfold faceLoop
    simp only
    split
    · exact processFace_bounded cv pf faces i s frame h
    · exact ih _ _ (processFace_bounded cv pf faces i s frame h)

/-- The method `detectAndSwap` keeps the history invariant. -/
theorem detectAndSwap_bounded (cv : OpenCV) (s : AdvancedFaceSwapper) (frame : Mat ℕ)
    (h : HistoryBounded s) : HistoryBounded (detectAndSwap cv s frame).1 := by
  unfold detectAndSwap
  split
  · exact h
  · split
    · exact h
    · split
      · exact h
      · exact faceLoop_bounded cv _ _ _ _ _ h

/-- Every reachable object satisfies the history invariant. -/
theorem reachable_bounded (cv : OpenCV) (s : AdvancedFaceSwapper) (h : Reachable cv s) :
    HistoryBounded s := by
  induction h with
  | init => simp [HistoryBounded, AdvancedFaceSwapper.new, MAX_HISTORY]
  | configure s s' _ h1 h2 ih =>
    unfold HistoryBounded at *
    rw [h1, h2]; exact ih
  | detectAndSwap s frame _ ih => exact detectAndSwap_bounded cv s frame ih

/-- Without the synthesis model, stage 3 does not read the embedder's fields. -/
theorem synthesize_withEmbedder (cv : OpenCV) (s : AdvancedFaceSwapper) (e : FMat ℚ) (b : Bool)
    (rect : Rect) (lm : List Point2f) (aligned : Mat ℕ) (h : s.inSwapperLoaded = false) :
    synthesize cv (withEmbedder s e b) rect lm aligned = synthesize cv s rect lm aligned := by
  have h1 : modelPathTaken (withEmbedder s e b) = false := by
    simp [modelPathTaken, withEmbedder, h]
  have h2 : modelPathTaken s = false := by simp [modelPathTaken, h]
  unfold synthesize
  simp only [h1, h2, Bool.false_and, Bool.not_false, ↓reduceIte]
  rfl

/-- The history update commutes with a change of the embedder's fields. -/
theorem pushHistory_withEmbedder (s : AdvancedFaceSwapper) (e : FMat ℚ) (b : Bool)
    (face : Mat ℕ) (lm : List Point2f) :
    pushHistory (withEmbedder s e b) face lm = withEmbedder (pushHistory s face lm) e b := by
  unfold pushHistory
  simp only [withEmbedder]
  split <;> rfl

/-- Stage 5 commutes with a change of the embedder's fields. -/
theorem stabilizationStage_withEmbedder (s : AdvancedFaceSwapper) (e : FMat ℚ) (b : Bool)
    (face : Mat ℕ) (lm : List Point2f) :
    stabilizationStage (withEmbedder s e b) face lm
      = (withEmbedder (stabilizationStage s face lm).1 e b, (stabilizationStage s face lm).2) := by
  unfold stabilizationStage
  have hs : (withEmbedder s e b).useTemporalStabilization = s.useTemporalStabilization := rfl
  have hf : stabilizeFace (withEmbedder s e b) face lm = stabilizeFace s face lm := rfl
  rw [hs]
  split
  · simp only [hf, pushHistory_withEmbedder]
  · rfl

/-- Stages 4 to 7 commute with a change of the embedder's fields. -/
theorem finishFace_withEmbedder (cv : OpenCV) (s : AdvancedFaceSwapper) (e : FMat ℚ) (b : Bool)
    (frame : Mat ℕ) (rect : Rect) (lm : List Point2f) (face : Mat ℕ) :
    finishFace cv (withEmbedder s e b) frame rect lm face
      = (finishFace cv s frame rect lm face).withEmbedder e b := by
  unfold finishFace
  have hr : (if (withEmbedder s e b).enableGFPGAN && (withEmbedder s e b).gfpganLoaded
      then restoreFace (withEmbedder s e b) face else face)
      = (if s.enableGFPGAN && s.gfpganLoaded then restoreFace s face else face) := rfl
  simp only [hr, stabilizationStage_withEmbedder]
  split
  · rfl
  · split
    · rfl
    · split
      · rfl
      · split <;> rfl

/-- Without the synthesis model, the loop body commutes with a change of the embedder's fields. -/
theorem processFace_withEmbedder (cv : OpenCV) (pf : Mat ℕ) (faces : Faces) (i : ℕ)
    (s : AdvancedFaceSwapper) (e : FMat ℚ) (b : Bool) (frame : Mat ℕ)
    (h : s.inSwapperLoaded = false) :
    processFace cv pf faces i (withEmbedder s e b) frame
      = (processFace cv pf faces i s frame).withEmbedder e b := by
  unfold processFace
  simp only [synthesize_withEmbedder cv s e b _ _ _ h, finishFace_withEmbedder]
  split
  · rfl
  · split
    · rfl
    · split
      · rfl
      · split
        · rfl
        · split <;> rfl

/-- Stage 5 does not write the synthesis-model flag. -/
theorem stabilizationStage_inSwapperLoaded (s : AdvancedFaceSwapper) (face : Mat ℕ)
    (lm : List Point2f) :
    (stabilizationStage s face lm).1.inSwapperLoaded = s.inSwapperLoaded := by
  unfold stabilizationStage pushHistory
  split
  · simp only; split <;> rfl
  · rfl

/-- The loop body does not write the synthesis-model flag. -/
theorem processFace_inSwapperLoaded (cv : OpenCV) (pf : Mat ℕ) (faces : Faces) (i : ℕ)
    (s : AdvancedFaceSwapper) (frame : Mat ℕ) :
    (processFace cv pf faces i s frame).self.inSwapperLoaded = s.inSwapperLoaded := by
  rcases processFace_self cv pf faces i s frame with e | ⟨r, lm, e⟩
  · rw [e]
  · rw [e]; exact stabilizationStage_inSwapperLoaded s r lm

/-- Without the synthesis model, the loop commutes with a change of the embedder's fields. -/
theorem faceLoop_withEmbedder (cv : OpenCV) (pf : Mat ℕ) (faces : Faces) (e : FMat ℚ) (b : Bool) :
    ∀ (todo : List ℕ) (s : AdvancedFaceSwapper) (frame : Mat ℕ), s.inSwapperLoaded = false →
      faceLoop cv pf faces todo (withEmbedder s e b) frame
        = (faceLoop cv pf faces todo s frame).withEmbedder e b := by
  intro todo
  induction todo with
  | nil => intro s frame _; rfl
  | cons i rest ih =>
    intro s frame h
    unfold faceLoop
    simp only [processFace_withEmbedder cv pf faces i s e b frame h]
    have hr : ((processFace cv pf faces i s frame).withEmbedder e b).raised
        = (processFace cv pf faces i s frame).raised := rfl
    rw [hr]
    split
    · rfl
    · exact ih _ _ ((processFace_inSwapperLoaded cv pf faces i s frame).trans h)

/-- Without the synthesis model, `detectAndSwap` commutes with a change of the embedder's fields. -/
theorem detectAndSwap_withEmbedder (cv : OpenCV) (s : AdvancedFaceSwapper) (e : FMat ℚ) (b : Bool)
    (frame : Mat ℕ) (h : s.inSwapperLoaded = false) :
    detectAndSwap cv (withEmbedder s e b) frame
      = (withEmbedder (detectAndSwap cv s frame).1 e b, (detectAndSwap cv s frame).2) := by
  unfold detectAndSwap
  have h1 : (withEmbedder s e b).faceDetectorLoaded = s.faceDetectorLoaded := rfl
  have h2 : (withEmbedder s e b).sourceFaceLoaded = s.sourceFaceLoaded := rfl
  rw [h1, h2]
  split
  · rfl
  · split
    · rfl
    · split
      · rfl
      · next _ pf _ _ faces _ =>
        exact congrArg (fun st : Step => (st.self, st.frame))
          (faceLoop_withEmbedder cv pf faces e b (List.range faces.length)
            { s with lastFaceCount := (faces.length : ℤ) } frame h)

/-- Dividing every component by `n` divides the sum of squares by `n * n`. -/
theorem sumSq_map_div {K : Type} [LinearOrderedField K] (v : List K) (n : K) :
    sumSq (v.map fun x => x / n) = sumSq v / (n * n) := by
  unfold sumSq
  induction v with
  | nil => simp
  | cons a l ih =>
    simp only [List.map_cons, List.sum_cons] at ih ⊢
    rw [ih]
    field_simp

/-- A sum of squares is not negative. -/
theorem sumSq_nonneg {K : Type} [LinearOrderedField K] (v : List K) : 0 ≤ sumSq v := by
  unfold sumSq
  induction v with
  | nil => simp
  | cons a l ih =>
    simp only [List.map_cons, List.sum_cons]
    exact add_nonneg (mul_self_nonneg a) ih

/-- A vector whose sum of squares is zero has only zero components. -/
theorem eq_zero_of_sumSq_eq_zero {K : Type} [LinearOrderedField K] (v : List K)
    (h : sumSq v = 0) : ∀ x ∈ v, x = 0 := by
  induction v with
  | nil => intro x hx; simp at hx
  | cons a l ih =>
    have h' : a * a + sumSq l = 0 := by simpa [sumSq] using h
    have ha : a * a = 0 := by
      have := mul_self_nonneg a
      have := sumSq_nonneg l
      linarith
    have hl : sumSq l = 0 := by
      have := mul_self_nonneg a
      have := sumSq_nonneg l
      linarith
    intro x hx
    rcases List.mem_cons.1 hx with rfl | hx
    · exact mul_self_eq_zero.1 ha
    · exact ih hl x hx

/-- The components `normalizeEmbedding` returns: none for an empty output, the output divided by its norm when that is positive, the output itself otherwise. -/
theorem normalizeEmbedding_data {K : Type} [LinearOrderedField K] (norm : List K → K)
    (output : FMat K) :
    (normalizeEmbedding norm output).data
      = if output.data.isEmpty then []
        else if 0 < norm output.data then output.data.map fun v => v / norm output.data
        else output.data := by
  unfold normalizeEmbedding
  by_cases h1 : 1 < output.rows <;> by_cases h2 : output.data.isEmpty = true <;>
    by_cases h3 : output.cols = 512 <;> by_cases h4 : output.data.length = 512 <;>
    by_cases h5 : 0 < norm output.data <;>
    simp [h1, h2, h3, h4, h5, FMat.reshapeRow, FMat.empty, FMat.nil]

/-- The embedder returns the empty matrix or the normalized first output of the network. -/
theorem extractFaceEmbedding_cases {K : Type} [LinearOrderedField K]
    (resize : Mat ℕ → ℤ → ℤ → Except Exn (Pixels ℕ))
    (forward : Mat K → Except Exn (List (FMat K))) (norm : List K → K)
    (arcFaceLoaded : Bool) (alignedFace : Mat ℕ) :
    extractFaceEmbedding resize forward norm arcFaceLoaded alignedFace = FMat.nil
    ∨ ∃ blob output rest, forward blob = .ok (output :: rest)
        ∧ extractFaceEmbedding resize forward norm arcFaceLoaded alignedFace
            = normalizeEmbedding norm output := by
  unfold extractFaceEmbedding
  split
  · exact Or.inl rfl
  · split
    · exact Or.inl rfl
    · simp only
      split
      · exact Or.inl rfl
      · exact Or.inl rfl
      · next output rest hfw => exact Or.inr ⟨_, output, rest, hfw, rfl⟩

/-- A face the geometric fallback returns is the affine warp of the source region for the 3-point transform. -/
theorem geometricFallback_done (cv : OpenCV) (s : AdvancedFaceSwapper) (faceRect : Rect)
    (targetLandmarks : List Point2f) (face : Mat ℕ)
    (h : geometricFallback cv s faceRect targetLandmarks = .done face) :
    ∃ transform p,
      cv.getAffineTransform (firstThreeRelative s.sourceLandmarks s.sourceFaceRect)
          (firstThreeRelative targetLandmarks faceRect) = .ok (some transform)
      ∧ cv.warpAffine (s.sourceFaceImage.roi s.sourceFaceRect) transform faceRect.width
          faceRect.height = .ok p
      ∧ face = ⟨faceRect.height.toNat, faceRect.width.toNat, p⟩ := by
  unfold geometricFallback at h
  simp only at h
  split at h
  · cases h
  · split at h
    · cases h
    · split at h
      · cases h
      · split at h
        · cases h
        · split at h
          · cases h
          · split at h
            · cases h
            · cases h
            · cases h
            · next transform hT =>
              split at h
              · cases h
              · cases h
              · next p hP =>
                split at h
                · cases h
                · injection h with h
                  exact ⟨transform, p, hT, hP, h.symm⟩

/-- With fewer than three source or target landmarks the geometric fallback skips the face. -/
theorem geometricFallback_skip (cv : OpenCV) (s : AdvancedFaceSwapper) (faceRect : Rect)
    (targetLandmarks : List Point2f)
    (h : s.sourceLandmarks.length < 3 ∨ targetLandmarks.length < 3) :
    geometricFallback cv s faceRect targetLandmarks = .skip := by
  unfold geometricFallback
  have hc : ((firstThreeRelative s.sourceLandmarks s.sourceFaceRect).length ≠ 3
      ∨ (firstThreeRelative targetLandmarks faceRect).length ≠ 3) := by
    rcases h with h | h
    · left
      have : ¬ 3 ≤ s.sourceLandmarks.length := by omega
      simp [firstThreeRelative, this]
    · right
      have : ¬ 3 ≤ targetLandmarks.length := by omega
      simp [firstThreeRelative, this]
  simp only
  rw [if_pos (by simpa using hc)]

/-- Stage 3 is the geometric fallback when the model path is not taken or yields the empty image. -/
theorem synthesize_of_no_model (cv : OpenCV) (s : AdvancedFaceSwapper) (faceRect : Rect)
    (targetLandmarks : List Point2f) (aligned : Mat ℕ)
    (h : modelPathTaken s = false
      ∨ (swapFaceWithModel cv s.inSwapperLoaded aligned s.sourceFaceEmbedding).empty = true) :
    synthesize cv s faceRect targetLandmarks aligned
      = geometricFallback cv s faceRect targetLandmarks := by
  unfold synthesize
  by_cases hm : modelPathTaken s = true
  · rcases h with h | h
    · rw [hm] at h; cases h
    · simp [hm, h]
  · simp [hm]

/-- Calling `detectAndSwap` on each frame of a list leads from a reachable object to a
reachable one. -/
theorem reachable_runFrames (cv : OpenCV) :
    ∀ (frames : List (Mat ℕ)) (s : AdvancedFaceSwapper), Reachable cv s →
      Reachable cv (runFrames cv s frames) := by
  intro frames
  induction frames with
  | nil => intro s h; exact h
  | cons frame rest ih => intro s h; exact ih _ (Reachable.detectAndSwap s frame h)

/-! ## The claims -/

/-- C1 (the code at the failing input): the detector reports two faces; the first has a
box that `faceRectOf` leaves wider than the frame, so `alignFace` raises on it; the
handlers outside the loop end the frame, and the second face, which is composited (sample
100, one history entry) when the first row is one the loop skips, is left untouched
(sample 0, empty history). -/
theorem exception_in_first_face_drops_second :
    raises (alignFace (cvDemo [wideRow, goodRow]) (constImage 100 100 0)
        (extractLandmarks [wideRow, goodRow] 0) (faceRectOf 100 100 (-10) 0 105 50) 512) = true
    ∧ (detectAndSwap (cvDemo [wideRow, goodRow]) swapperDemo (constImage 100 100 0)).2.px 15 15 0
        = 0
    ∧ (detectAndSwap (cvDemo [wideRow, goodRow]) swapperDemo
        (constImage 100 100 0)).1.previousFaces.length = 0
    ∧ (detectAndSwap (cvDemo [emptyRow, goodRow]) swapperDemo (constImage 100 100 0)).2.px 15 15 0
        = 100
    ∧ (detectAndSwap (cvDemo [emptyRow, goodRow]) swapperDemo
        (constImage 100 100 0)).1.previousFaces.length = 1 := by
  decide!

/-- C2 (the code at the failing input): for a frame sample 0 and a synthesized sample 200,
`blendFace` returns 100 where the mask is 0 and 100 where the mask is 255; the
mask-weighted composite would return 0 and 200. -/
theorem blendFace_ignores_mask :
    sampleOf (blendFace (cvDemo []) (constImage 1 1 200) (constImage 1 1 0) ⟨0, 0, 1, 1⟩
        (constImage 1 1 0)) 0 0 0 = some 100
    ∧ sampleOf (blendFace (cvDemo []) (constImage 1 1 200) (constImage 1 1 0) ⟨0, 0, 1, 1⟩
        (constImage 1 1 255)) 0 0 0 = some 100 := by
  decide!

/-- C3 (the code at the failing input): for a frame of 100 by 100 and the detector row
(x, y, w, h) = (-10, 0, 105, 50) the rectangle is (0, 0, 105, 50); it passes the check
width > 0 and height > 0, reaches past the right edge of the frame, and the extraction
`image(faceRect)` in `alignFace` raises. -/
theorem faceRect_exceeds_frame :
    faceRectOf 100 100 (-10) 0 105 50 = ⟨0, 0, 105, 50⟩
    ∧ 0 < (faceRectOf 100 100 (-10) 0 105 50).width
    ∧ 0 < (faceRectOf 100 100 (-10) 0 105 50).height
    ∧ 100 < (faceRectOf 100 100 (-10) 0 105 50).x + (faceRectOf 100 100 (-10) 0 105 50).width
    ∧ raises (alignFace (cvDemo [wideRow]) (constImage 100 100 0) (extractLandmarks [wideRow] 0)
        (faceRectOf 100 100 (-10) 0 105 50) 512) = true := by
  decide!

/-- C4 (the code at the failing input): with stabilization on and strength 0.7, a history
holding the image of sample 200 and the same image as current face give the sample 130;
fed that image five times from an empty history, stage 5 puts out 200, 130, 137, 142,
145. -/
theorem stabilizer_darkens_constant_input :
    (stabilizeFace { swapperDemo with previousFaces := [constImage 1 1 200],
                                      previousLandmarks := [[]] }
        (constImage 1 1 200) []).px 0 0 0 = 130
    ∧ (feedFaces swapperDemo (List.replicate 5 (constImage 1 1 200))).map (fun m => m.px 0 0 0)
        = [200, 130, 137, 142, 145] := by
  decide!

/-- C6: every reachable object holds at most `MAX_HISTORY = 5` faces and as many landmark
sets, also after the loop body has run for any one face; a push onto a history of five
drops the oldest entry, keeps the other four in order and puts the new face last. -/
theorem history_bounded_fifo (cv : OpenCV) (s : AdvancedFaceSwapper) (h : Reachable cv s) :
    HistoryBounded s
    ∧ (∀ processedFrame faces i frame,
        HistoryBounded (processFace cv processedFrame faces i s frame).self)
    ∧ (∀ face landmarks, s.previousFaces.length = MAX_HISTORY →
        (pushHistory s face landmarks).previousFaces = s.previousFaces.tail ++ [face]
        ∧ (pushHistory s face landmarks).previousLandmarks
            = s.previousLandmarks.tail ++ [landmarks]) := by
  have hb := reachable_bounded cv s h
  refine ⟨hb, fun pf faces i frame => processFace_bounded cv pf faces i s frame hb, ?_⟩
  intro face lm h5
  obtain ⟨_, h2⟩ := hb
  unfold MAX_HISTORY at h5
  have hc : MAX_HISTORY < (s.previousFaces ++ [face]).length := by
    simp [MAX_HISTORY, h5]
  have hf : s.previousFaces ≠ [] := by
    intro e; rw [e] at h5; simp at h5
  have hl : s.previousLandmarks ≠ [] := by
    intro e; rw [e, h5] at h2; simp at h2
  unfold pushHistory
  simp only [hc, ↓reduceIte]
  constructor
  · cases hp : s.previousFaces with
    | nil => exact absurd hp hf
    | cons a l => simp
  · cases hp : s.previousLandmarks with
    | nil => exact absurd hp hl
    | cons a l => simp

/-- C6 at a concrete input: the object after seven frames with one face each holds five
history entries. -/
theorem history_bounded_fifo_witness :
    HistoryBounded (runFrames (cvDemo [goodRow]) swapperDemo
        (List.replicate 7 (constImage 100 100 0)))
    ∧ (runFrames (cvDemo [goodRow]) swapperDemo
        (List.replicate 7 (constImage 100 100 0))).previousFaces.length = 5 :=
  ⟨(history_bounded_fifo (cvDemo [goodRow]) _
      (reachable_runFrames (cvDemo [goodRow]) _ swapperDemo
        (Reachable.configure AdvancedFaceSwapper.new swapperDemo Reachable.init rfl rfl))).1,
    by decide!⟩

/-- C7: when the rectangle is not fully inside the frame, or the synthesized face or the
mask is empty, `blendFace` returns the original frame. -/
theorem blendFace_invalid_returns_frame (cv : OpenCV) (swappedFace originalFrame : Mat ℕ)
    (faceRect : Rect) (mask : Mat ℕ)
    (h : faceRect.x < 0 ∨ faceRect.y < 0 ∨ faceRect.x + faceRect.width > originalFrame.cols
      ∨ faceRect.y + faceRect.height > originalFrame.rows
      ∨ swappedFace.empty = true ∨ mask.empty = true) :
    blendFace cv swappedFace originalFrame faceRect mask = .ok originalFrame := by
  unfold blendFace
  by_cases he : (swappedFace.empty || originalFrame.empty || mask.empty) = true
  · simp [he]
  · have hob : faceRect.outOfBounds originalFrame.cols originalFrame.rows = true := by
      simp only [Bool.or_eq_true, not_or, Bool.not_eq_true] at he
      rcases h with h | h | h | h | h | h
      · simp [Rect.outOfBounds, h]
      · simp [Rect.outOfBounds, h]
      · simp [Rect.outOfBounds, h]
      · simp [Rect.outOfBounds, h]
      · simp [he.1.1] at h
      · simp [he.2] at h
    simp [he, hob]

/-- C7 at a concrete input: a rectangle that reaches past the right edge of the frame. -/
theorem blendFace_invalid_returns_frame_witness :
    blendFace (cvDemo []) (constImage 4 4 200) (constImage 10 10 0) ⟨8, 0, 4, 4⟩
        (constImage 4 4 255) = .ok (constImage 10 10 0) :=
  blendFace_invalid_returns_frame (cvDemo []) (constImage 4 4 200) (constImage 10 10 0)
    ⟨8, 0, 4, 4⟩ (constImage 4 4 255) (Or.inr (Or.inr (Or.inl (by decide))))

/-- C8: the call of `swapFaceWithModel` stands under a condition that needs the synthesis
model loaded and a non-empty source embedding, and without them stage 3 does not depend on
the synthesis network; without the synthesis model stage 3 is the geometric fallback and
every face it yields is the affine warp of the source region for the 3-point transform;
when the model path is not taken or yields the empty image and fewer than three source or
target landmarks exist, stage 3 skips the face and the loop body leaves object and frame
as they are. -/
theorem synthesizer_path_selection (cv : OpenCV) (s : AdvancedFaceSwapper) (faceRect : Rect)
    (targetLandmarks : List Point2f) (aligned : Mat ℕ) :
    (modelPathTaken s = true → s.inSwapperLoaded = true ∧ s.sourceFaceEmbedding.empty = false)
    ∧ (¬ (s.inSwapperLoaded = true ∧ s.sourceFaceEmbedding.empty = false) →
        ∀ net, synthesize { cv with inSwapperForward := net } s faceRect targetLandmarks aligned
          = synthesize cv s faceRect targetLandmarks aligned)
    ∧ (s.inSwapperLoaded = false →
        synthesize cv s faceRect targetLandmarks aligned
          = geometricFallback cv s faceRect targetLandmarks
        ∧ ∀ face, synthesize cv s faceRect targetLandmarks aligned = .done face →
            ∃ transform p,
              cv.getAffineTransform (firstThreeRelative s.sourceLandmarks s.sourceFaceRect)
                  (firstThreeRelative targetLandmarks faceRect) = .ok (some transform)
              ∧ cv.warpAffine (s.sourceFaceImage.roi s.sourceFaceRect) transform faceRect.width
                  faceRect.height = .ok p
              ∧ face = ⟨faceRect.height.toNat, faceRect.width.toNat, p⟩)
    ∧ ((modelPathTaken s = false
          ∨ (swapFaceWithModel cv s.inSwapperLoaded aligned s.sourceFaceEmbedding).empty = true) →
        (s.sourceLandmarks.length < 3 ∨ targetLandmarks.length < 3) →
        synthesize cv s faceRect targetLandmarks aligned = .skip)
    ∧ (∀ processedFrame faces i frame,
        (modelPathTaken s = false
          ∨ ∀ a, (swapFaceWithModel cv s.inSwapperLoaded a s.sourceFaceEmbedding).empty = true) →
        (s.sourceLandmarks.length < 3 ∨ (extractLandmarks faces i).length < 3) →
        (processFace cv processedFrame faces i s frame).self = s
        ∧ (processFace cv processedFrame faces i s frame).frame = frame) := by
  refine ⟨?_, ?_, ?_, ?_, ?_⟩
  · intro h
    simp only [modelPathTaken, Bool.and_eq_true, Bool.not_eq_true'] at h
    exact ⟨h.1.1, h.2⟩
  · intro h net
    have hm : modelPathTaken s = false := by
      by_cases h1 : s.inSwapperLoaded = true
      · have h2 : s.sourceFaceEmbedding.empty = true := by
          by_contra h2
          exact h ⟨h1, by simpa using h2⟩
        simp [modelPathTaken, h2]
      · simp [modelPathTaken, h1]
    rw [synthesize_of_no_model _ s _ _ _ (Or.inl hm), synthesize_of_no_model _ s _ _ _ (Or.inl hm)]
    rfl
  · intro h
    have hm : modelPathTaken s = false := by simp [modelPathTaken, h]
    have he := synthesize_of_no_model cv s faceRect targetLandmarks aligned (Or.inl hm)
    refine ⟨he, fun face hf => ?_⟩
    rw [he] at hf
    exact geometricFallback_done cv s faceRect targetLandmarks face hf
  · intro h hl
    rw [synthesize_of_no_model cv s faceRect targetLandmarks aligned h]
    exact geometricFallback_skip cv s faceRect targetLandmarks hl
  · intro pf faces i frame h hl
    have hs : ∀ rect a, synthesize cv s rect (extractLandmarks faces i) a = .skip := by
      intro rect a
      have h' : modelPathTaken s = false
          ∨ (swapFaceWithModel cv s.inSwapperLoaded a s.sourceFaceEmbedding).empty = true := by
        rcases h with h | h
        · exact Or.inl h
        · exact Or.inr (h a)
      rw [synthesize_of_no_model cv s rect _ a h']
      exact geometricFallback_skip cv s rect _ hl
    unfold processFace
    simp only [hs]
    split
    · exact ⟨rfl, rfl⟩
    · split
      · exact ⟨rfl, rfl⟩
      · split
        · exact ⟨rfl, rfl⟩
        · split <;> exact ⟨rfl, rfl⟩

/-- C9: two objects without the synthesis model that agree on every field but the source
embedding and the embedding-model flag leave, for the same frame and library, the same
frame, the same history and the same face count. -/
theorem fallback_independent_of_embedder (cv : OpenCV) (s₁ s₂ : AdvancedFaceSwapper)
    (frame : Mat ℕ) (hno₁ : s₁.inSwapperLoaded = false)
    (hsame : s₂ = { s₁ with sourceFaceEmbedding := s₂.sourceFaceEmbedding,
                            arcFaceLoaded := s₂.arcFaceLoaded }) :
    (detectAndSwap cv s₁ frame).2 = (detectAndSwap cv s₂ frame).2
    ∧ (detectAndSwap cv s₁ frame).1.previousFaces = (detectAndSwap cv s₂ frame).1.previousFaces
    ∧ (detectAndSwap cv s₁ frame).1.previousLandmarks
        = (detectAndSwap cv s₂ frame).1.previousLandmarks
    ∧ (detectAndSwap cv s₁ frame).1.lastFaceCount = (detectAndSwap cv s₂ frame).1.lastFaceCount := by
  have h2 : s₂ = withEmbedder s₁ s₂.sourceFaceEmbedding s₂.arcFaceLoaded := hsame
  rw [h2, detectAndSwap_withEmbedder cv s₁ _ _ frame hno₁]
  exact ⟨rfl, rfl, rfl, rfl⟩

/-- C9 at a concrete input: one object without embedder and embedding, one with both. -/
theorem fallback_independent_of_embedder_witness :
    (detectAndSwap (cvDemo [goodRow]) swapperDemo (constImage 100 100 0)).2
      = (detectAndSwap (cvDemo [goodRow])
          { swapperDemo with sourceFaceEmbedding := ⟨1, 2, [3, 4]⟩, arcFaceLoaded := true }
          (constImage 100 100 0)).2 :=
  (fallback_independent_of_embedder (cvDemo [goodRow]) swapperDemo
    { swapperDemo with sourceFaceEmbedding := ⟨1, 2, [3, 4]⟩, arcFaceLoaded := true }
    (constImage 100 100 0) rfl rfl).1

/-- C10 as amended: when `cv::norm` returns the L2 norm of the network's outputs, every
embedding `extractFaceEmbedding` returns that has a component other than zero has the sum
of the squares of its components equal to 1. -/
theorem embedding_unit_norm {K : Type} [LinearOrderedField K]
    (resize : Mat ℕ → ℤ → ℤ → Except Exn (Pixels ℕ))
    (forward : Mat K → Except Exn (List (FMat K))) (norm : List K → K)
    (arcFaceLoaded : Bool) (alignedFace : Mat ℕ)
    (hnorm : ∀ blob outputs, forward blob = .ok outputs → ∀ output ∈ outputs,
      0 ≤ norm output.data ∧ norm output.data * norm output.data = sumSq output.data)
    (hnz : ∃ x ∈ (extractFaceEmbedding resize forward norm arcFaceLoaded alignedFace).data,
      x ≠ 0) :
    sumSq (extractFaceEmbedding resize forward norm arcFaceLoaded alignedFace).data = 1 := by
  rcases extractFaceEmbedding_cases resize forward norm arcFaceLoaded alignedFace with
    h | ⟨blob, output, rest, hfw, h⟩
  · rw [h] at hnz
    simp [FMat.nil] at hnz
  · rw [h] at hnz ⊢
    obtain ⟨hn0, hn2⟩ := hnorm blob _ hfw output (List.mem_cons_self _ _)
    rw [normalizeEmbedding_data] at hnz ⊢
    by_cases he : output.data.isEmpty = true
    · simp [he] at hnz
    · simp only [he, Bool.false_eq_true, ↓reduceIte] at hnz ⊢
      by_cases hp : 0 < norm output.data
      · simp only [hp, ↓reduceIte]
        rw [sumSq_map_div, ← hn2]
        exact div_self (ne_of_gt (mul_pos hp hp))
      · exfalso
        simp only [hp, ↓reduceIte] at hnz
        have h0 : norm output.data = 0 := le_antisymm (not_lt.1 hp) hn0
        have hs : sumSq output.data = 0 := by rw [← hn2, h0, mul_zero]
        obtain ⟨x, hx, hx0⟩ := hnz
        exact hx0 (eq_zero_of_sumSq_eq_zero _ hs x hx)

/-- C10 as stated fails: for a network output of 512 zeros, whose norm is 0,
`extractFaceEmbedding` returns a non-empty vector whose sum of squares is 0, not 1. -/
theorem zero_embedding_not_unit :
    (extractFaceEmbedding (cvDemo []).resize zeroNet exactNorm true (constImage 112 112 0)).empty
        = false
    ∧ exactNorm (List.replicate 512 0) = 0
    ∧ sumSq (extractFaceEmbedding (cvDemo []).resize zeroNet exactNorm true
        (constImage 112 112 0)).data ≠ 1 := by
  decide!

/-- C10 as amended at a concrete input: the output (3, 4) of norm 5. -/
theorem embedding_unit_norm_witness :
    sumSq (extractFaceEmbedding (cvDemo []).resize smallNet exactNorm true
        (constImage 112 112 0)).data = 1 :=
  embedding_unit_norm (cvDemo []).resize smallNet exactNorm true (constImage 112 112 0)
    (by
      intro blob outputs h output ho
      simp only [smallNet, Except.ok.injEq] at h
      subst h
      simp only [List.mem_singleton] at ho
      subst ho
      decide!)
    ⟨3 / 5, by decide!, by decide!⟩

/-! ## Lemmas for registration, validation and tensor conversion -/

/-- Without a registered source face every call of `detectAndSwap` leaves object and frame as they are. -/
theorem runFramesOut_unregistered (cv : OpenCV) (s : AdvancedFaceSwapper)
    (h : s.sourceFaceLoaded = false) :
    ∀ frames : List (Mat ℕ), runFramesOut cv s frames = (s, frames) := by
  intro frames
  induction frames with
  | nil => rfl
  | cons frame rest ih =>
    have hd : detectAndSwap cv s frame = (s, frame) := by
      simp [detectAndSwap, h]
    simp only [runFramesOut, hd, ih]

/-- Stage 5 does not write the face count. -/
theorem stabilizationStage_lastFaceCount (s : AdvancedFaceSwapper) (face : Mat ℕ)
    (lm : List Point2f) :
    (stabilizationStage s face lm).1.lastFaceCount = s.lastFaceCount := by
  unfold stabilizationStage pushHistory
  split
  · simp only; split <;> rfl
  · rfl

/-- The loop body does not write the face count. -/
theorem processFace_lastFaceCount (cv : OpenCV) (pf : Mat ℕ) (faces : Faces) (i : ℕ)
    (s : AdvancedFaceSwapper) (frame : Mat ℕ) :
    (processFace cv pf faces i s frame).self.lastFaceCount = s.lastFaceCount := by
  rcases processFace_self cv pf faces i s frame with e | ⟨r, lm, e⟩
  · rw [e]
  · rw [e]; exact stabilizationStage_lastFaceCount s r lm

/-- The loop does not write the face count. -/
theorem faceLoop_lastFaceCount (cv : OpenCV) (pf : Mat ℕ) (faces : Faces) :
    ∀ (todo : List ℕ) (s : AdvancedFaceSwapper) (frame : Mat ℕ),
      (faceLoop cv pf faces todo s frame).self.lastFaceCount = s.lastFaceCount := by
  intro todo
  induction todo with
  | nil => intro s frame; rfl
  | cons i rest ih =>
    intro s frame
    unfold faceLoop
    simp only
    split
    · exact processFace_lastFaceCount cv pf faces i s frame
    · rw [ih]; exact processFace_lastFaceCount cv pf faces i s frame

/-- The test of lines 771-782 lets exactly the points of the closed rectangle pass. -/
theorem pointOutside_eq_false_iff (pt : Point2f) (rect : Rect) :
    pointOutside pt rect = false ↔ pointWithin pt rect := by
  unfold pointOutside pointWithin
  simp only [Bool.or_eq_false_iff, decide_eq_false_iff_not, not_lt]
  tauto

/-- When the geometric fallback yields a face, the three source and the three target points lie in their closed rectangles. -/
theorem geometricFallback_done_within (cv : OpenCV) (s : AdvancedFaceSwapper) (faceRect : Rect)
    (targetLandmarks : List Point2f)
    (h : (geometricFallback cv s faceRect targetLandmarks).isDone = true) :
    (∀ pt ∈ firstThreeRelative s.sourceLandmarks s.sourceFaceRect, pointWithin pt s.sourceFaceRect)
    ∧ (∀ pt ∈ firstThreeRelative targetLandmarks faceRect, pointWithin pt faceRect) := by
  unfold geometricFallback at h
  simp only at h
  split at h
  · simp [Flow.isDone] at h
  · split at h
    · simp [Flow.isDone] at h
    · next _ hv =>
      simp only [Bool.or_eq_true, Bool.not_eq_true', not_or, Bool.not_eq_false,
        List.all_eq_true] at hv
      constructor
      · intro pt hpt
        have := hv.1 pt hpt
        exact (pointOutside_eq_false_iff pt _).1 (by simpa using this)
      · intro pt hpt
        have := hv.2 pt hpt
        exact (pointOutside_eq_false_iff pt _).1 (by simpa using this)

/-- When one of the six points lies outside its closed rectangle, the geometric fallback skips the face. -/
theorem geometricFallback_skip_of_outside (cv : OpenCV) (s : AdvancedFaceSwapper)
    (faceRect : Rect) (targetLandmarks : List Point2f)
    (h : (∃ pt ∈ firstThreeRelative s.sourceLandmarks s.sourceFaceRect,
            ¬ pointWithin pt s.sourceFaceRect)
        ∨ (∃ pt ∈ firstThreeRelative targetLandmarks faceRect, ¬ pointWithin pt faceRect)) :
    geometricFallback cv s faceRect targetLandmarks = .skip := by
  unfold geometricFallback
  simp only
  split
  · rfl
  · have hv : (!(firstThreeRelative s.sourceLandmarks s.sourceFaceRect).all
          (fun pt => !pointOutside pt s.sourceFaceRect)
        || !(firstThreeRelative targetLandmarks faceRect).all
          (fun pt => !pointOutside pt faceRect)) = true := by
      rcases h with ⟨pt, hpt, hout⟩ | ⟨pt, hpt, hout⟩
      · have ho : pointOutside pt s.sourceFaceRect = true := by
          by_contra hc
          exact hout ((pointOutside_eq_false_iff pt _).1 (by simpa using hc))
        have : (firstThreeRelative s.sourceLandmarks s.sourceFaceRect).all
            (fun pt => !pointOutside pt s.sourceFaceRect) = false := by
          rw [List.all_eq_false]
          exact ⟨pt, hpt, by simp [ho]⟩
        simp [this]
      · have ho : pointOutside pt faceRect = true := by
          by_contra hc
          exact hout ((pointOutside_eq_false_iff pt _).1 (by simpa using hc))
        have : (firstThreeRelative targetLandmarks faceRect).all
            (fun pt => !pointOutside pt faceRect) = false := by
          rw [List.all_eq_false]
          exact ⟨pt, hpt, by simp [ho]⟩
        simp [this]
    rw [if_pos hv]

/-- When stage 3 skips the face, the loop body leaves object and frame as they are. -/
theorem processFace_of_skip (cv : OpenCV) (pf : Mat ℕ) (faces : Faces) (i : ℕ)
    (s : AdvancedFaceSwapper) (frame : Mat ℕ)
    (hs : ∀ a, synthesize cv s
        (faceRectOf pf.cols pf.rows (faces.at i 0) (faces.at i 1) (faces.at i 2) (faces.at i 3))
        (extractLandmarks faces i) a = .skip) :
    (processFace cv pf faces i s frame).self = s
    ∧ (processFace cv pf faces i s frame).frame = frame := by
  unfold processFace
  simp only [hs]
  split
  · exact ⟨rfl, rfl⟩
  · split
    · exact ⟨rfl, rfl⟩
    · split
      · exact ⟨rfl, rfl⟩
      · split <;> exact ⟨rfl, rfl⟩

/-- C11 as amended: `alignFace` returns the empty image when fewer than 5 landmarks are
given or the estimation finds no transform; for exactly 5 landmarks, a found transform, a
rectangle inside the image, a warp that does not raise and a positive `outputSize`, it
returns an image of exactly `outputSize` by `outputSize`, the warp's samples. -/
theorem alignFace_shape (cv : OpenCV) (image : Mat ℕ) (landmarks : List Point2f)
    (faceRect : Rect) (outputSize : ℤ) :
    (landmarks.length < 5 →
      alignFace cv image landmarks faceRect outputSize = .ok Mat.nil)
    ∧ (cv.estimateAffinePartial2D (relativeTo faceRect landmarks) (alignTemplate outputSize)
          = .ok none →
        alignFace cv image landmarks faceRect outputSize = .ok Mat.nil)
    ∧ (∀ transform p, landmarks.length = 5 →
        cv.estimateAffinePartial2D (relativeTo faceRect landmarks) (alignTemplate outputSize)
          = .ok (some transform) →
        faceRect.validRoi image.cols image.rows = true →
        cv.warpAffine (image.roi faceRect) transform outputSize outputSize = .ok p →
        0 < outputSize →
        ∃ aligned, alignFace cv image landmarks faceRect outputSize = .ok aligned
          ∧ (aligned.rows : ℤ) = outputSize ∧ (aligned.cols : ℤ) = outputSize
          ∧ aligned.px = p) := by
  refine ⟨?_, ?_, ?_⟩
  · intro h
    simp [alignFace, h]
  · intro h
    unfold alignFace
    split
    · rfl
    · simp [h]
  · intro transform p h5 hest hroi hwarp hpos
    refine ⟨⟨outputSize.toNat, outputSize.toNat, p⟩, ?_, ?_, ?_, rfl⟩
    · unfold alignFace
      have : ¬ landmarks.length < 5 := by omega
      simp [this, hest, hroi, hwarp]
    · simp [Int.toNat_of_nonneg hpos.le]
    · simp [Int.toNat_of_nonneg hpos.le]

/-- C11 as stated fails: for 5 landmarks, a found transform and the rectangle (8, 8, 5, 5)
on an image of 10 by 10, `alignFace` raises and returns no image. -/
theorem alignFace_raises_outside_image :
    fivePoints.length = 5
    ∧ ((cvDemo []).estimateAffinePartial2D (relativeTo ⟨8, 8, 5, 5⟩ fivePoints)
        (alignTemplate 512)).toOption.join.isSome = true
    ∧ Rect.validRoi ⟨8, 8, 5, 5⟩ 10 10 = false
    ∧ raises (alignFace (cvDemo []) (constImage 10 10 0) fivePoints ⟨8, 8, 5, 5⟩ 512) = true
    ∧ sampleOf (alignFace (cvDemo []) (constImage 10 10 0) fivePoints ⟨8, 8, 5, 5⟩ 512) 0 0 0
        = none := by
  decide!

/-- C11 as amended at a concrete input: the rectangle (2, 2, 5, 5) on an image of 10 by
10. -/
theorem alignFace_shape_witness :
    ∃ aligned, alignFace (cvDemo []) (constImage 10 10 0) fivePoints ⟨2, 2, 5, 5⟩ 512
        = .ok aligned
      ∧ (aligned.rows : ℤ) = 512 ∧ (aligned.cols : ℤ) = 512
      ∧ aligned.px = fun _ _ _ => 200 :=
  (alignFace_shape (cvDemo []) (constImage 10 10 0) fivePoints ⟨2, 2, 5, 5⟩ 512).2.2
    ⟨1, 0, 0, 0, 1, 0⟩ (fun _ _ _ => 200) rfl rfl (by decide) rfl (by decide)

/-- C12: on an object without a registered source face, a call of `loadSourceFace` for an
image in which the detector finds no face returns false and leaves
`isSourceFaceLoaded()` false; every later call of `detectAndSwap`, and every sequence of
such calls, leaves the frames, the face count and the history as they were. -/
theorem failed_first_registration (cv : OpenCV) (s : AdvancedFaceSwapper) (image : Mat ℕ)
    (hfresh : s.sourceFaceLoaded = false) (hnone : cv.detect image = .ok []) :
    (loadSourceFace cv s image).2 = .ok false
    ∧ isSourceFaceLoaded (loadSourceFace cv s image).1 = false
    ∧ (∀ frame, (detectAndSwap cv (loadSourceFace cv s image).1 frame).2 = frame
        ∧ getFaceCount (detectAndSwap cv (loadSourceFace cv s image).1 frame).1
            = getFaceCount s
        ∧ (detectAndSwap cv (loadSourceFace cv s image).1 frame).1.previousFaces
            = s.previousFaces
        ∧ (detectAndSwap cv (loadSourceFace cv s image).1 frame).1.previousLandmarks
            = s.previousLandmarks)
    ∧ (∀ frames, (runFramesOut cv (loadSourceFace cv s image).1 frames).2 = frames
        ∧ getFaceCount (runFramesOut cv (loadSourceFace cv s image).1 frames).1
            = getFaceCount s
        ∧ (runFramesOut cv (loadSourceFace cv s image).1 frames).1.previousFaces
            = s.previousFaces
        ∧ (runFramesOut cv (loadSourceFace cv s image).1 frames).1.previousLandmarks
            = s.previousLandmarks) := by
  have hload : loadSourceFace cv s image = (s, .ok false)
      ∨ loadSourceFace cv s image = ({ s with sourceFaceImage := image }, .ok false) := by
    unfold loadSourceFace
    split
    · exact Or.inl rfl
    · right
      simp [hnone]
  have key : (loadSourceFace cv s image).2 = .ok false
      ∧ (loadSourceFace cv s image).1.sourceFaceLoaded = false
      ∧ (loadSourceFace cv s image).1.lastFaceCount = s.lastFaceCount
      ∧ (loadSourceFace cv s image).1.previousFaces = s.previousFaces
      ∧ (loadSourceFace cv s image).1.previousLandmarks = s.previousLandmarks := by
    rcases hload with h | h <;> rw [h] <;> exact ⟨rfl, hfresh, rfl, rfl, rfl⟩
  obtain ⟨k1, k2, k3, k4, k5⟩ := key
  refine ⟨k1, k2, fun frame => ?_, fun frames => ?_⟩
  · have hd : detectAndSwap cv (loadSourceFace cv s image).1 frame
        = ((loadSourceFace cv s image).1, frame) := by
      simp [detectAndSwap, k2]
    rw [hd]
    exact ⟨rfl, k3, k4, k5⟩
  · rw [runFramesOut_unregistered cv _ k2 frames]
    exact ⟨rfl, k3, k4, k5⟩

/-- C12 at a concrete input: the constructed object after the detector has been loaded. -/
theorem failed_first_registration_witness :
    returned (loadSourceFace (cvDemo []) freshWithDetector (constImage 50 50 200)).2 = some false
    ∧ isSourceFaceLoaded (loadSourceFace (cvDemo []) freshWithDetector (constImage 50 50 200)).1
        = false :=
  ⟨by rw [(failed_first_registration (cvDemo []) freshWithDetector (constImage 50 50 200)
        rfl rfl).1]; rfl,
    (failed_first_registration (cvDemo []) freshWithDetector (constImage 50 50 200)
        rfl rfl).2.1⟩

/-- C13 (the code at the failing input): two objects with the embedding model loaded and a
registered profile, equal but for the stored embedding; `loadSourceFace` for an image with
one face whose alignment finds no transform returns true for both, leaves
`sourceFaceAligned` empty and keeps each object's old embedding, so the two resulting
profiles differ. -/
theorem reregistration_keeps_old_embedding :
    returned (loadSourceFace (cvNoAlign [goodRow]) (registeredDemo (unitEmbedding 0))
        (constImage 100 100 7)).2 = some true
    ∧ returned (loadSourceFace (cvNoAlign [goodRow]) (registeredDemo (unitEmbedding 1))
        (constImage 100 100 7)).2 = some true
    ∧ (loadSourceFace (cvNoAlign [goodRow]) (registeredDemo (unitEmbedding 0))
        (constImage 100 100 7)).1.sourceFaceAligned.empty = true
    ∧ (loadSourceFace (cvNoAlign [goodRow]) (registeredDemo (unitEmbedding 0))
        (constImage 100 100 7)).1.sourceFaceEmbedding.data = (unitEmbedding 0).data
    ∧ (loadSourceFace (cvNoAlign [goodRow]) (registeredDemo (unitEmbedding 1))
        (constImage 100 100 7)).1.sourceFaceEmbedding.data = (unitEmbedding 1).data
    ∧ (unitEmbedding 0).data ≠ (unitEmbedding 1).data := by
  decide!

/-- C14 (the code at the failing input): on an object with a registered source of 50 by 50
(sample 200), `loadSourceFace` for an image of 60 by 60 (sample 7) without a face returns
false, yet `sourceFaceImage` is the new image, beside the old rectangle, the old landmarks
and `sourceFaceLoaded = true`. -/
theorem failed_registration_replaces_image :
    isSourceFaceLoaded swapperDemo = true
    ∧ returned (loadSourceFace (cvDemo []) swapperDemo (constImage 60 60 7)).2 = some false
    ∧ swapperDemo.sourceFaceImage.px 0 0 0 = 200
    ∧ (loadSourceFace (cvDemo []) swapperDemo (constImage 60 60 7)).1.sourceFaceImage.px 0 0 0
        = 7
    ∧ (loadSourceFace (cvDemo []) swapperDemo (constImage 60 60 7)).1.sourceFaceImage.rows = 60
    ∧ (loadSourceFace (cvDemo []) swapperDemo (constImage 60 60 7)).1.sourceFaceRect
        = swapperDemo.sourceFaceRect
    ∧ (loadSourceFace (cvDemo []) swapperDemo (constImage 60 60 7)).1.sourceLandmarks
        = swapperDemo.sourceLandmarks
    ∧ isSourceFaceLoaded (loadSourceFace (cvDemo []) swapperDemo (constImage 60 60 7)).1
        = true := by
  decide!

/-- C15: for a non-empty frame, a loaded detector and a registered source, when the detector
returns `faces` for the preprocessed frame, `getFaceCount()` after `detectAndSwap` is the
number of rows of `faces`. -/
theorem faceCount_is_detection_count (cv : OpenCV) (s : AdvancedFaceSwapper) (frame : Mat ℕ)
    (processedFrame : Mat ℕ) (faces : Faces)
    (hframe : frame.empty = false) (hdet : s.faceDetectorLoaded = true)
    (hsrc : s.sourceFaceLoaded = true)
    (hpre : preprocessFrame cv frame = .ok processedFrame)
    (hfaces : cv.detect processedFrame = .ok faces) :
    getFaceCount (detectAndSwap cv s frame).1 = (faces.length : ℤ) := by
  unfold detectAndSwap getFaceCount
  simp only [hframe, hdet, hsrc, Bool.not_true, Bool.or_self, Bool.false_eq_true, ↓reduceIte,
    hpre, hfaces]
  rw [faceLoop_lastFaceCount]

/-- C15 at a concrete input: three detector rows, of which the first raises in `alignFace` and
ends the loop. -/
theorem faceCount_is_detection_count_witness :
    getFaceCount (detectAndSwap (cvDemo [wideRow, emptyRow, goodRow]) swapperDemo
        (constImage 100 100 0)).1 = 3 :=
  faceCount_is_detection_count (cvDemo [wideRow, emptyRow, goodRow]) swapperDemo
    (constImage 100 100 0) (constImage 100 100 0) [wideRow, emptyRow, goodRow] rfl rfl rfl rfl rfl

/-- C16 as amended: the geometric fallback yields a face only if each of the three source
points and each of the three target points lies in its closed rectangle,
`0 ≤ x ≤ rect.width` and `0 ≤ y ≤ rect.height`; if one of the six points lies outside, the
fallback skips the face, and when the model path is not taken or yields the empty image the
loop body leaves object (history included) and frame as they are. -/
theorem fallback_validation (cv : OpenCV) (s : AdvancedFaceSwapper) :
    (∀ faceRect targetLandmarks,
      (geometricFallback cv s faceRect targetLandmarks).isDone = true →
        (∀ pt ∈ firstThreeRelative s.sourceLandmarks s.sourceFaceRect,
            pointWithin pt s.sourceFaceRect)
        ∧ (∀ pt ∈ firstThreeRelative targetLandmarks faceRect, pointWithin pt faceRect))
    ∧ (∀ faceRect targetLandmarks,
        ((∃ pt ∈ firstThreeRelative s.sourceLandmarks s.sourceFaceRect,
            ¬ pointWithin pt s.sourceFaceRect)
          ∨ (∃ pt ∈ firstThreeRelative targetLandmarks faceRect, ¬ pointWithin pt faceRect)) →
        geometricFallback cv s faceRect targetLandmarks = .skip)
    ∧ (∀ processedFrame faces i frame,
        (modelPathTaken s = false
          ∨ ∀ a, (swapFaceWithModel cv s.inSwapperLoaded a s.sourceFaceEmbedding).empty = true) →
        ((∃ pt ∈ firstThreeRelative s.sourceLandmarks s.sourceFaceRect,
            ¬ pointWithin pt s.sourceFaceRect)
          ∨ (∃ pt ∈ firstThreeRelative (extractLandmarks faces i)
                (faceRectOf processedFrame.cols processedFrame.rows (faces.at i 0)
                  (faces.at i 1) (faces.at i 2) (faces.at i 3)),
              ¬ pointWithin pt
                (faceRectOf processedFrame.cols processedFrame.rows (faces.at i 0)
                  (faces.at i 1) (faces.at i 2) (faces.at i 3)))) →
        (processFace cv processedFrame faces i s frame).self = s
        ∧ (processFace cv processedFrame faces i s frame).frame = frame) := by
  refine ⟨fun faceRect lm h => geometricFallback_done_within cv s faceRect lm h,
    fun faceRect lm h => geometricFallback_skip_of_outside cv s faceRect lm h, ?_⟩
  intro pf faces i frame hmodel hout
  apply processFace_of_skip
  intro a
  have h' : modelPathTaken s = false
      ∨ (swapFaceWithModel cv s.inSwapperLoaded a s.sourceFaceEmbedding).empty = true := by
    rcases hmodel with h | h
    · exact Or.inl h
    · exact Or.inr (h a)
  rw [synthesize_of_no_model cv s _ _ a h']
  exact geometricFallback_skip_of_outside cv s _ _ hout

/-- C16 as stated fails: a target point with `x = rect.width` (not `x < rect.width`) passes
the validation; the fallback yields a face, which is composited and pushed onto the
history. -/
theorem fallback_accepts_point_on_edge :
    firstThreeRelative (extractLandmarks [edgeRow] 0) ⟨10, 10, 20, 20⟩
        = [⟨20, 5⟩, ⟨15, 5⟩, ⟨10, 10⟩]
    ∧ ¬ ((20 : ℚ) < ((⟨10, 10, 20, 20⟩ : Rect).width : ℚ))
    ∧ faceRectOf 100 100 (Faces.at [edgeRow] 0 0) (Faces.at [edgeRow] 0 1)
        (Faces.at [edgeRow] 0 2) (Faces.at [edgeRow] 0 3) = ⟨10, 10, 20, 20⟩
    ∧ (geometricFallback (cvDemo [edgeRow]) swapperDemo ⟨10, 10, 20, 20⟩
        (extractLandmarks [edgeRow] 0)).isDone = true
    ∧ (detectAndSwap (cvDemo [edgeRow]) swapperDemo (constImage 100 100 0)).2.px 15 15 0 = 100
    ∧ (detectAndSwap (cvDemo [edgeRow]) swapperDemo
        (constImage 100 100 0)).1.previousFaces.length = 1 := by
  decide!

/-- C16 as amended at a concrete input: a target point with `x = rect.width + 1`. -/
theorem fallback_validation_witness :
    geometricFallback (cvDemo [outsideRow]) swapperDemo ⟨10, 10, 20, 20⟩
      (extractLandmarks [outsideRow] 0) = .skip :=
  (fallback_validation (cvDemo [outsideRow]) swapperDemo).2.1 ⟨10, 10, 20, 20⟩
    (extractLandmarks [outsideRow] 0)
    (Or.inr ⟨⟨21, 5⟩, by decide!, by unfold pointWithin; norm_num⟩)

/-- C20: for a region of width and height at least 1 and 5 landmarks, the kernel side
`blurSize` equals `max(5, m div 10)` when that is odd and one more otherwise, `m` the
smaller dimension; it is odd and at least 5, and it is the side `generateFaceMask` hands to
`GaussianBlur`. -/
theorem blurSize_eq_kernelSide (cv : OpenCV) (width height : ℤ) (landmarks : List Point2f)
    (hw : 1 ≤ width) (hh : 1 ≤ height) (h5 : landmarks.length = 5) :
    blurSize width height = kernelSide width height
    ∧ blurSize width height % 2 = 1
    ∧ 5 ≤ blurSize width height
    ∧ (∀ hull p, cv.convexHull (maskHullPoints width height landmarks) = .ok hull →
        cv.fillConvexPoly ⟨height.toNat, width.toNat, fun _ _ _ => 0⟩ hull = .ok p →
        generateFaceMask cv width height landmarks
          = match cv.gaussianBlur ⟨height.toNat, width.toNat, p⟩ (kernelSide width height) with
            | .error e => .error e
            | .ok q => .ok ⟨height.toNat, width.toNat, q⟩) := by
  have hm : 0 ≤ min width height := by omega
  have ht : Int.tdiv (min width height) 10 = min width height / 10 :=
    Int.tdiv_eq_ediv hm (by norm_num)
  have hge : 5 ≤ max 5 (min width height / 10) := le_max_left _ _
  have heq : blurSize width height = kernelSide width height := by
    unfold blurSize kernelSide
    simp only [ht]
    generalize max 5 (min width height / 10) = b at hge ⊢
    split_ifs <;> omega
  refine ⟨heq, ?_, ?_, ?_⟩
  · unfold blurSize
    simp only [ht]
    generalize max 5 (min width height / 10) = b at hge ⊢
    split_ifs <;> omega
  · unfold blurSize
    simp only [ht]
    generalize max 5 (min width height / 10) = b at hge ⊢
    split_ifs <;> omega
  · intro hull p hhull hfill
    have hl : ¬ landmarks.length < 5 := by omega
    unfold generateFaceMask
    simp only [hl, ↓reduceIte, hhull, hfill, heq]

/-- C20 at a concrete input: a region of 200 by 300, kernel side 21. -/
theorem blurSize_eq_kernelSide_witness :
    blurSize 200 300 = kernelSide 200 300 ∧ blurSize 200 300 = 21 :=
  ⟨(blurSize_eq_kernelSide (cvDemo []) 200 300 fivePoints (by decide) (by decide) rfl).1,
    by decide⟩

/-! ## Lemmas for the settings, the composite, the frame effect and the stabilizer bound -/

/-- The method `restoreFace` returns its argument. -/
theorem restoreFace_eq (s : AdvancedFaceSwapper) (face : Mat ℕ) : restoreFace s face = face := by
  unfold restoreFace
  split <;> rfl

/-- The history update commutes with a change of the restoration switch and the blend
strength. -/
theorem pushHistory_retuned (s : AdvancedFaceSwapper) (e : Bool) (b : ℚ)
    (face : Mat ℕ) (lm : List Point2f) :
    pushHistory (retuned s e b) face lm = retuned (pushHistory s face lm) e b := by
  unfold pushHistory
  simp only [retuned]
  split <;> rfl

/-- Stage 5 commutes with a change of the restoration switch and the blend strength. -/
theorem stabilizationStage_retuned (s : AdvancedFaceSwapper) (e : Bool) (b : ℚ)
    (face : Mat ℕ) (lm : List Point2f) :
    stabilizationStage (retuned s e b) face lm
      = (retuned (stabilizationStage s face lm).1 e b, (stabilizationStage s face lm).2) := by
  unfold stabilizationStage
  have hs : (retuned s e b).useTemporalStabilization = s.useTemporalStabilization := rfl
  have hf : stabilizeFace (retuned s e b) face lm = stabilizeFace s face lm := rfl
  rw [hs]
  split
  · simp only [hf, pushHistory_retuned]
  · rfl

/-- Stages 4 to 7 commute with a change of the restoration switch and the blend strength. -/
theorem finishFace_retuned (cv : OpenCV) (s : AdvancedFaceSwapper) (e : Bool) (b : ℚ)
    (frame : Mat ℕ) (rect : Rect) (lm : List Point2f) (face : Mat ℕ) :
    finishFace cv (retuned s e b) frame rect lm face
      = (finishFace cv s frame rect lm face).retuned e b := by
  unfold finishFace
  have hr : (if (retuned s e b).enableGFPGAN && (retuned s e b).gfpganLoaded
      then restoreFace (retuned s e b) face else face) = face := by
    rw [restoreFace_eq]; exact ite_self _
  have hr' : (if s.enableGFPGAN && s.gfpganLoaded then restoreFace s face else face) = face := by
    rw [restoreFace_eq]; exact ite_self _
  simp only [hr, hr', stabilizationStage_retuned]
  split
  · rfl
  · split
    · rfl
    · split
      · rfl
      · split <;> rfl

/-- The loop body commutes with a change of the restoration switch and the blend strength. -/
theorem processFace_retuned (cv : OpenCV) (pf : Mat ℕ) (faces : Faces) (i : ℕ)
    (s : AdvancedFaceSwapper) (e : Bool) (b : ℚ) (frame : Mat ℕ) :
    processFace cv pf faces i (retuned s e b) frame
      = (processFace cv pf faces i s frame).retuned e b := by
  unfold processFace
  have hsyn : ∀ rect lm aligned,
      synthesize cv (retuned s e b) rect lm aligned = synthesize cv s rect lm aligned :=
    fun _ _ _ => rfl
  simp only [hsyn, finishFace_retuned]
  split
  · rfl
  · split
    · rfl
    · split
      · rfl
      · split
        · rfl
        · split <;> rfl

/-- The loop commutes with a change of the restoration switch and the blend strength. -/
theorem faceLoop_retuned (cv : OpenCV) (pf : Mat ℕ) (faces : Faces) (e : Bool) (b : ℚ) :
    ∀ (todo : List ℕ) (s : AdvancedFaceSwapper) (frame : Mat ℕ),
      faceLoop cv pf faces todo (retuned s e b) frame
        = (faceLoop cv pf faces todo s frame).retuned e b := by
  intro todo
  induction todo with
  | nil => intro s frame; rfl
  | cons i rest ih =>
    intro s frame
    unfold faceLoop
    simp only [processFace_retuned cv pf faces i s e b frame]
    have hr : ((processFace cv pf faces i s frame).retuned e b).raised
        = (processFace cv pf faces i s frame).raised := rfl
    rw [hr]
    split
    · rfl
    · exact ih _ _

/-- The method `detectAndSwap` commutes with a change of the restoration switch and the
blend strength: neither is read. -/
theorem detectAndSwap_retuned (cv : OpenCV) (s : AdvancedFaceSwapper) (e : Bool) (b : ℚ)
    (frame : Mat ℕ) :
    detectAndSwap cv (retuned s e b) frame
      = (retuned (detectAndSwap cv s frame).1 e b, (detectAndSwap cv s frame).2) := by
  unfold detectAndSwap
  have h1 : (retuned s e b).faceDetectorLoaded = s.faceDetectorLoaded := rfl
  have h2 : (retuned s e b).sourceFaceLoaded = s.sourceFaceLoaded := rfl
  rw [h1, h2]
  split
  · rfl
  · split
    · rfl
    · split
      · rfl
      · next _ pf _ _ faces _ =>
        exact congrArg (fun st : Step => (st.self, st.frame))
          (faceLoop_retuned cv pf faces e b (List.range faces.length)
            { s with lastFaceCount := (faces.length : ℤ) } frame)

/-- A rectangle of nonnegative size that passes the bounds test of `blendFace` passes the
precondition of the extraction. -/
theorem validRoi_of_inBounds (r : Rect) (cols rows : ℤ) (hw : 0 ≤ r.width) (hh : 0 ≤ r.height)
    (hin : r.outOfBounds cols rows = false) : r.validRoi cols rows = true := by
  simp only [Rect.outOfBounds, Bool.or_eq_false_iff, decide_eq_false_iff_not, not_lt] at hin
  obtain ⟨⟨⟨h1, h2⟩, h3⟩, h4⟩ := hin
  simp [Rect.validRoi, h1, h2, h3, h4, hw, hh]

/-- Two images of one size are kept or resized alike. -/
theorem resizeTo_failure (cv : OpenCV) (m₁ m₂ : Mat ℕ) (w h : ℤ)
    (hsize : m₁.sameSize m₂ = true)
    (hlib : failure (cv.resize m₁ w h) = failure (cv.resize m₂ w h)) :
    failure (resizeTo cv m₁ w h) = failure (resizeTo cv m₂ w h) := by
  have hs := (Mat.sameSize_iff m₁ m₂).1 hsize
  have hh : m₁.hasSize w h = m₂.hasSize w h := by simp [Mat.hasSize, hs.1, hs.2]
  unfold resizeTo
  rw [hh]
  split
  · rfl
  · revert hlib
    cases cv.resize m₁ w h <;> cases cv.resize m₂ w h <;> simp [failure]

/-- The result of `blendFace` reads the mask only through its emptiness and the way its
resizing ends. -/
theorem blendFace_of_mask (cv : OpenCV) (face frame : Mat ℕ) (rect : Rect) (m₁ m₂ : Mat ℕ)
    (he : m₁.empty = m₂.empty)
    (hf : failure (resizeTo cv m₁ rect.width rect.height)
      = failure (resizeTo cv m₂ rect.width rect.height)) :
    blendFace cv face frame rect m₁ = blendFace cv face frame rect m₂ := by
  unfold blendFace
  simp only [he]
  split
  · rfl
  · split
    · rfl
    · split
      · rfl
      · revert hf
        cases resizeTo cv m₁ rect.width rect.height <;>
          cases resizeTo cv m₂ rect.width rect.height <;> simp [failure]

/-- The composite of `blendFace` for a rectangle inside the frame. -/
theorem blendFace_inBounds (cv : OpenCV) (face frame : Mat ℕ) (rect : Rect) (mask : Mat ℕ)
    (resized resizedMask : Mat ℕ)
    (hface : face.empty = false) (hframe : frame.empty = false) (hmask : mask.empty = false)
    (hw : 0 ≤ rect.width) (hh : 0 ≤ rect.height)
    (hin : rect.outOfBounds frame.cols frame.rows = false)
    (hres : resizeTo cv face rect.width rect.height = .ok resized)
    (hresm : resizeTo cv mask rect.width rect.height = .ok resizedMask) :
    blendFace cv face frame rect mask
      = .ok (frame.setRoi rect
          ((Mat.zipWith (fun a b => a * 0.5 + b * 0.5)
            ((frame.roi rect).map fun (p : ℕ) => (p : ℚ))
            (resized.map fun (p : ℕ) => (p : ℚ))).map saturate8)) := by
  have hv := validRoi_of_inBounds rect frame.cols frame.rows hw hh hin
  unfold blendFace
  simp only [hface, hframe, hmask, hin, hres, hresm, hv, Bool.or_self, Bool.false_eq_true,
    ↓reduceIte]

/-- The composite of `blendFace` has the frame's size and the frame's samples outside the
rectangle. -/
theorem blendFace_outside (cv : OpenCV) (face frame : Mat ℕ) (rect : Rect) (mask out : Mat ℕ)
    (h : blendFace cv face frame rect mask = .ok out) :
    out.rows = frame.rows ∧ out.cols = frame.cols
    ∧ ∀ i j c, Mat.inRect rect i j = false → out.px i j c = frame.px i j c := by
  unfold blendFace at h
  simp only at h
  split at h
  · cases h; exact ⟨rfl, rfl, fun _ _ _ _ => rfl⟩
  · split at h
    · cases h; exact ⟨rfl, rfl, fun _ _ _ _ => rfl⟩
    · split at h
      · cases h
      · split at h
        · cases h
        · split at h
          · cases h
            refine ⟨rfl, rfl, fun i j c hij => ?_⟩
            simp only [Mat.setRoi, hij, Bool.false_eq_true, ↓reduceIte]
          · cases h

/-- Stages 4 to 7 keep the frame's size and its samples outside the rectangle. -/
theorem finishFace_outside (cv : OpenCV) (s : AdvancedFaceSwapper) (frame : Mat ℕ) (rect : Rect)
    (lm : List Point2f) (face : Mat ℕ) :
    (finishFace cv s frame rect lm face).frame.rows = frame.rows
    ∧ (finishFace cv s frame rect lm face).frame.cols = frame.cols
    ∧ ∀ i j c, Mat.inRect rect i j = false →
        (finishFace cv s frame rect lm face).frame.px i j c = frame.px i j c := by
  unfold finishFace
  split
  · exact ⟨rfl, rfl, fun _ _ _ _ => rfl⟩
  · simp only
    split
    · exact ⟨rfl, rfl, fun _ _ _ _ => rfl⟩
    · split
      · exact ⟨rfl, rfl, fun _ _ _ _ => rfl⟩
      · split
        · exact ⟨rfl, rfl, fun _ _ _ _ => rfl⟩
        · next out hb => exact blendFace_outside cv _ frame rect _ out hb

/-- The loop body keeps the frame's size and its samples outside the face's rectangle. -/
theorem processFace_outside (cv : OpenCV) (pf : Mat ℕ) (faces : Faces) (k : ℕ)
    (s : AdvancedFaceSwapper) (frame : Mat ℕ) :
    (processFace cv pf faces k s frame).frame.rows = frame.rows
    ∧ (processFace cv pf faces k s frame).frame.cols = frame.cols
    ∧ ∀ i j c, Mat.inRect (faceRectAt pf faces k) i j = false →
        (processFace cv pf faces k s frame).frame.px i j c = frame.px i j c := by
  unfold processFace
  simp only
  split
  · exact ⟨rfl, rfl, fun _ _ _ _ => rfl⟩
  · split
    · exact ⟨rfl, rfl, fun _ _ _ _ => rfl⟩
    · split
      · exact ⟨rfl, rfl, fun _ _ _ _ => rfl⟩
      · split
        · exact ⟨rfl, rfl, fun _ _ _ _ => rfl⟩
        · split
          · exact ⟨rfl, rfl, fun _ _ _ _ => rfl⟩
          · exact ⟨rfl, rfl, fun _ _ _ _ => rfl⟩
          · exact finishFace_outside cv s frame _ _ _

/-- The loop keeps the frame's size and its samples outside the rectangles of the faces it
visits. -/
theorem faceLoop_outside (cv : OpenCV) (pf : Mat ℕ) (faces : Faces) :
    ∀ (todo : List ℕ) (s : AdvancedFaceSwapper) (frame : Mat ℕ),
      (faceLoop cv pf faces todo s frame).frame.rows = frame.rows
      ∧ (faceLoop cv pf faces todo s frame).frame.cols = frame.cols
      ∧ ∀ i j c, (∀ k ∈ todo, Mat.inRect (faceRectAt pf faces k) i j = false) →
          (faceLoop cv pf faces todo s frame).frame.px i j c = frame.px i j c := by
  intro todo
  induction todo with
  | nil => intro s frame; exact ⟨rfl, rfl, fun _ _ _ _ => rfl⟩
  | cons k rest ih =>
    intro s frame
    obtain ⟨p1, p2, p3⟩ := processFace_outside cv pf faces k s frame
    unfold faceLoop
    simp only
    split
    · exact ⟨p1, p2, fun i j c h => p3 i j c (h k (List.mem_cons_self _ _))⟩
    · obtain ⟨q1, q2, q3⟩ := ih (processFace cv pf faces k s frame).self
        (processFace cv pf faces k s frame).frame
      refine ⟨q1.trans p1, q2.trans p2, fun i j c h => ?_⟩
      rw [q3 i j c (fun k' hk' => h k' (List.mem_cons_of_mem _ hk'))]
      exact p3 i j c (h k (List.mem_cons_self _ _))

/-- With stabilization on, a history and a face that is not empty, each sample of the
stabilized face is the 8-bit conversion of the weighted sum. -/
theorem stabilizeFace_sample (s : AdvancedFaceSwapper) (currentFace : Mat ℕ)
    (landmarks : List Point2f) (hon : s.useTemporalStabilization = true)
    (hne : s.previousFaces.isEmpty = false) (hcur : currentFace.empty = false) (i j c : ℕ) :
    (stabilizeFace s currentFace landmarks).px i j c
      = saturate8 (stabilizerWeighting s.stabilizationStrength s.previousFaces
          currentFace i j c) := by
  obtain ⟨_, _, h3⟩ := stabilize_fold currentFace
    (s.stabilizationStrength * (1 / ((s.previousFaces.length : ℚ) + 1))) hcur s.previousFaces
    ((currentFace.map fun (p : ℕ) => (p : ℚ)).map fun v => v * (1 - s.stabilizationStrength))
    ⟨rfl, rfl⟩
  simp only [stabilizeFace, hon, hne, hcur, Bool.not_true, Bool.or_self, Bool.false_eq_true,
    ↓reduceIte, Mat.map]
  congr 1
  have := h3 i j c
  simp only [Mat.map] at this
  rw [this]
  unfold stabilizerWeighting
  congr 1
  · ring
  · congr 1
    apply List.map_congr_left
    intro e _
    ring

/-- The rounding of a value that is at most an integer is at most that integer. -/
theorem cvRound_le (q : ℚ) (B : ℤ) (h : q ≤ B) : cvRound q ≤ B := by
  have hfl : ⌊q⌋ ≤ B := Int.floor_le_iff.2 (by linarith [Int.floor_le q, h])
  unfold cvRound
  split
  · exact hfl
  · next h1 =>
    have hlt : (⌊q⌋ : ℚ) < q := by
      have : (1 : ℚ) / 2 ≤ q - ⌊q⌋ := not_lt.1 h1
      linarith
    have hlt' : (⌊q⌋ : ℚ) < (B : ℚ) := lt_of_lt_of_le hlt h
    have hlt'' : ⌊q⌋ < B := by exact_mod_cast hlt'
    split
    · omega
    · split
      · exact hfl
      · omega

/-- The rounding of a nonnegative value is nonnegative. -/
theorem cvRound_nonneg (q : ℚ) (h : 0 ≤ q) : 0 ≤ cvRound q := by
  have hfl : 0 ≤ ⌊q⌋ := Int.floor_nonneg.2 h
  unfold cvRound
  split
  · exact hfl
  · split
    · omega
    · split
      · exact hfl
      · omega

/-- The 8-bit conversion of a value that is at most a natural number is at most that number. -/
theorem saturate8_le_of_le (q : ℚ) (B : ℕ) (h : q ≤ B) : saturate8 q ≤ B := by
  have h1 : cvRound q ≤ (B : ℤ) := cvRound_le q B (by exact_mod_cast h)
  unfold saturate8
  have h2 : min 255 (max 0 (cvRound q)) ≤ (B : ℤ) :=
    le_trans (min_le_right _ _) (max_le (Int.ofNat_nonneg B) h1)
  omega

/-- A right fold with `max` is at least its start value and at least every element. -/
theorem le_foldr_max : ∀ (l : List ℕ) (a : ℕ),
    a ≤ l.foldr max a ∧ ∀ x ∈ l, x ≤ l.foldr max a := by
  intro l
  induction l with
  | nil => intro a; simp
  | cons y rest ih =>
    intro a
    obtain ⟨h1, h2⟩ := ih a
    refine ⟨le_trans h1 (le_max_right _ _), fun x hx => ?_⟩
    rcases List.mem_cons.1 hx with e | hm
    · rw [e]; exact le_max_left _ _
    · exact le_trans (h2 x hm) (le_max_right _ _)

/-- A sum of `w * x` over samples `x ≤ B` is at most the count times `w * B`. -/
theorem weighted_sum_le (w : ℚ) (B : ℕ) (hw : 0 ≤ w) (i j c : ℕ) :
    ∀ (l : List (Mat ℕ)), (∀ e ∈ l, e.px i j c ≤ B) →
      (l.map fun entry => w * (entry.px i j c : ℚ)).sum ≤ (l.length : ℚ) * (w * B) := by
  intro l
  induction l with
  | nil => intro _; simp
  | cons e rest ih =>
    intro h
    have h1 : (e.px i j c : ℚ) ≤ B := by exact_mod_cast h e (List.mem_cons_self _ _)
    have h2 := ih (fun x hx => h x (List.mem_cons_of_mem _ hx))
    have h3 : w * (e.px i j c : ℚ) ≤ w * B := mul_le_mul_of_nonneg_left h1 hw
    simp only [List.map_cons, List.sum_cons, List.length_cons, Nat.cast_add, Nat.cast_one]
    linarith

/-- The weights of the stabilizer sum to at most `1 - α / (n + 1)`. -/
theorem stabilizer_weights (α : ℚ) (n k : ℕ) (hα0 : 0 ≤ α) (hk : k ≤ n) :
    (1 - α) + (k : ℚ) * (α / ((n : ℚ) + 1)) ≤ 1 - α / ((n : ℚ) + 1)
    ∧ 1 - α / ((n : ℚ) + 1) ≤ 1 := by
  have hn : (0 : ℚ) < (n : ℚ) + 1 := by positivity
  have hd : 0 ≤ α / ((n : ℚ) + 1) := div_nonneg hα0 hn.le
  have hk' : (k : ℚ) ≤ n := by exact_mod_cast hk
  have e : α = ((n : ℚ) + 1) * (α / ((n : ℚ) + 1)) := by field_simp
  refine ⟨?_, by linarith⟩
  have : (k : ℚ) * (α / ((n : ℚ) + 1)) ≤ (n : ℚ) * (α / ((n : ℚ) + 1)) :=
    mul_le_mul_of_nonneg_right hk' hd
  nlinarith

/-- The weighted sum of the stabilizer is nonnegative and at most `sampleMax`. -/
theorem stabilizerWeighting_bounds (α : ℚ) (history : List (Mat ℕ)) (currentFace : Mat ℕ)
    (i j c : ℕ) (hα0 : 0 ≤ α) (hα1 : α ≤ 1) :
    0 ≤ stabilizerWeighting α history currentFace i j c
    ∧ stabilizerWeighting α history currentFace i j c
        ≤ (sampleMax history currentFace i j c : ℚ) := by
  have hn : (0 : ℚ) < (history.length : ℚ) + 1 := by positivity
  have hw : 0 ≤ α / ((history.length : ℚ) + 1) := div_nonneg hα0 hn.le
  obtain ⟨m1, m2⟩ := le_foldr_max
    ((history.filter fun entry => entry.sameSize currentFace).map fun entry => entry.px i j c)
    (currentFace.px i j c)
  have hB : ∀ e ∈ history.filter (fun entry => entry.sameSize currentFace),
      e.px i j c ≤ sampleMax history currentFace i j c :=
    fun e he => m2 _ (List.mem_map_of_mem _ he)
  have hcur : (currentFace.px i j c : ℚ) ≤ (sampleMax history currentFace i j c : ℚ) := by
    exact_mod_cast m1
  have hsum := weighted_sum_le (α / ((history.length : ℚ) + 1))
    (sampleMax history currentFace i j c) hw i j c _ hB
  have hk : (history.filter fun entry => entry.sameSize currentFace).length ≤ history.length :=
    List.length_filter_le _ _
  obtain ⟨w1, w2⟩ := stabilizer_weights α history.length
    (history.filter fun entry => entry.sameSize currentFace).length hα0 hk
  have hB0 : (0 : ℚ) ≤ (sampleMax history currentFace i j c : ℚ) := Nat.cast_nonneg _
  have hc0 : (0 : ℚ) ≤ (currentFace.px i j c : ℚ) := Nat.cast_nonneg _
  have hs0 : 0 ≤ ((history.filter fun entry => entry.sameSize currentFace).map
      fun entry => α / ((history.length : ℚ) + 1) * (entry.px i j c : ℚ)).sum := by
    apply List.sum_nonneg
    intro x hx
    obtain ⟨e, _, rfl⟩ := List.mem_map.1 hx
    exact mul_nonneg hw (Nat.cast_nonneg _)
  unfold stabilizerWeighting
  constructor
  · have : 0 ≤ (1 - α) * (currentFace.px i j c : ℚ) := mul_nonneg (by linarith) hc0
    linarith
  · have h1 : (1 - α) * (currentFace.px i j c : ℚ)
        ≤ (1 - α) * (sampleMax history currentFace i j c : ℚ) :=
      mul_le_mul_of_nonneg_left hcur (by linarith)
    have h2 : ((1 - α) + ((history.filter fun entry => entry.sameSize currentFace).length : ℚ)
          * (α / ((history.length : ℚ) + 1))) * (sampleMax history currentFace i j c : ℚ)
        ≤ 1 * (sampleMax history currentFace i j c : ℚ) :=
      mul_le_mul_of_nonneg_right (le_trans w1 w2) hB0
    nlinarith

/-- The setters keep both strengths in [0, 1]. -/
theorem applySetters_range : ∀ (calls : List SetterCall) (s : AdvancedFaceSwapper),
    (0 ≤ s.blendStrength ∧ s.blendStrength ≤ 1 ∧ 0 ≤ s.stabilizationStrength
      ∧ s.stabilizationStrength ≤ 1) →
    0 ≤ (applySetters s calls).blendStrength ∧ (applySetters s calls).blendStrength ≤ 1
      ∧ 0 ≤ (applySetters s calls).stabilizationStrength
      ∧ (applySetters s calls).stabilizationStrength ≤ 1 := by
  intro calls
  induction calls with
  | nil => intro s h; exact h
  | cons call rest ih =>
    intro s h
    cases call with
    | blend v =>
      exact ih _ ⟨le_max_left _ _, max_le (by norm_num) (min_le_left _ _), h.2.2.1, h.2.2.2⟩
    | stabilization v =>
      exact ih _ ⟨h.1, h.2.1, le_max_left _ _, max_le (by norm_num) (min_le_left _ _)⟩

/-! ## The claims on compositing, settings, landmarks and the frame effect -/

/-- C21 (the code at the failing input): on a frame of samples 100, with a warped source of
samples 200 and the default blend strength, `FaceSwapper::swapFace` leaves channel 0 of a
pixel with mask 0 at 100 and writes 0 to its channels 1 and 2, where the claim's formula
gives 100; with blend strength 1 and mask 255 channel 0 is the warped sample 200 and
channels 1 and 2 are 100, where the formula gives 200. The image `invMask` is `1 - m` in its
first channel and `-m` in the others. -/
theorem swapFace_inverse_mask_on_first_channel :
    sampleOf (FaceSwapper.swapFace cvNoFill landmarkSwapperDemo (constImage 40 40 100)
        ⟨10, 10, 20, 20⟩ goodLandmarks) 15 15 0 = some 100
    ∧ sampleOf (FaceSwapper.swapFace cvNoFill landmarkSwapperDemo (constImage 40 40 100)
        ⟨10, 10, 20, 20⟩ goodLandmarks) 15 15 1 = some 0
    ∧ sampleOf (FaceSwapper.swapFace cvNoFill landmarkSwapperDemo (constImage 40 40 100)
        ⟨10, 10, 20, 20⟩ goodLandmarks) 15 15 2 = some 0
    ∧ saturate8 (globalRatioComposite landmarkSwapperDemo.blendStrength 0 200 100) = 100
    ∧ sampleOf (FaceSwapper.swapFace (cvDemo []) (landmarkSwapperDemo.setBlendStrength 1)
        (constImage 40 40 100) ⟨10, 10, 20, 20⟩ goodLandmarks) 15 15 0 = some 200
    ∧ sampleOf (FaceSwapper.swapFace (cvDemo []) (landmarkSwapperDemo.setBlendStrength 1)
        (constImage 40 40 100) ⟨10, 10, 20, 20⟩ goodLandmarks) 15 15 1 = some 100
    ∧ sampleOf (FaceSwapper.swapFace (cvDemo []) (landmarkSwapperDemo.setBlendStrength 1)
        (constImage 40 40 100) ⟨10, 10, 20, 20⟩ goodLandmarks) 15 15 2 = some 100
    ∧ saturate8 (globalRatioComposite (landmarkSwapperDemo.setBlendStrength 1).blendStrength
        255 200 100) = 200 := by
  refine ⟨?_, ?_, ?_, ?_, ?_, ?_, ?_, ?_⟩ <;> decide!

/-- C22: `restoreFace` returns its input for every object; `loadGFPGANModel` returns false
and leaves `gfpganLoaded` false, writing nothing else; and `detectAndSwap` run on an object
and on the same object after `setEnableGFPGAN`, with the same frame and library, gives the
same frame and the same history. -/
theorem restoration_is_pass_through (cv : OpenCV) (s : AdvancedFaceSwapper) (face frame : Mat ℕ)
    (enable : Bool) :
    restoreFace s face = face
    ∧ (loadGFPGANModel s).2 = false
    ∧ (loadGFPGANModel s).1 = { s with gfpganLoaded := false }
    ∧ (detectAndSwap cv (setEnableGFPGAN s enable) frame).2 = (detectAndSwap cv s frame).2
    ∧ (detectAndSwap cv (setEnableGFPGAN s enable) frame).1.previousFaces
        = (detectAndSwap cv s frame).1.previousFaces
    ∧ (detectAndSwap cv (setEnableGFPGAN s enable) frame).1.previousLandmarks
        = (detectAndSwap cv s frame).1.previousLandmarks := by
  have key : detectAndSwap cv (setEnableGFPGAN s enable) frame
      = (retuned (detectAndSwap cv s frame).1 enable s.blendStrength,
          (detectAndSwap cv s frame).2) :=
    detectAndSwap_retuned cv s enable s.blendStrength frame
  refine ⟨restoreFace_eq s face, rfl, rfl, ?_, ?_, ?_⟩
  · rw [key]
  · rw [key]; rfl
  · rw [key]; rfl

/-- C23: when temporal stabilization is switched off, or the history is empty, or the face
is empty, `stabilizeFace` returns `currentFace` itself: the same size and the same samples. -/
theorem stabilizeFace_identity_cases (s : AdvancedFaceSwapper) (currentFace : Mat ℕ)
    (currentLandmarks : List Point2f)
    (h : s.useTemporalStabilization = false ∨ s.previousFaces = [] ∨ currentFace.empty = true) :
    stabilizeFace s currentFace currentLandmarks = currentFace := by
  unfold stabilizeFace
  rcases h with h | h | h
  · simp [h]
  · simp [h]
  · simp [h]

/-- C23 at a concrete input: an object with an empty history and a face of 2 by 2. -/
theorem stabilizeFace_identity_cases_witness :
    (swapperDemo.useTemporalStabilization = false ∨ swapperDemo.previousFaces = []
        ∨ (constImage 2 2 90).empty = true)
      ∧ stabilizeFace swapperDemo (constImage 2 2 90) [] = constImage 2 2 90 :=
  ⟨Or.inr (Or.inl rfl), stabilizeFace_identity_cases swapperDemo (constImage 2 2 90) []
    (Or.inr (Or.inl rfl))⟩

/-- C24: after any sequence of `setBlendStrength` and `setStabilizationStrength` calls on
the constructed object both strengths lie in [0, 1]; a setter called with `v` in [0, 1]
stores `v`, with `v < 0` stores 0, with `v > 1` stores 1, and writes no other field. -/
theorem strengths_clamped (calls : List SetterCall) (s : AdvancedFaceSwapper) (v : ℚ) :
    (0 ≤ (applySetters AdvancedFaceSwapper.new calls).blendStrength
      ∧ (applySetters AdvancedFaceSwapper.new calls).blendStrength ≤ 1
      ∧ 0 ≤ (applySetters AdvancedFaceSwapper.new calls).stabilizationStrength
      ∧ (applySetters AdvancedFaceSwapper.new calls).stabilizationStrength ≤ 1)
    ∧ (0 ≤ v → v ≤ 1 → (setBlendStrength s v).blendStrength = v
        ∧ (setStabilizationStrength s v).stabilizationStrength = v)
    ∧ (v < 0 → (setBlendStrength s v).blendStrength = 0
        ∧ (setStabilizationStrength s v).stabilizationStrength = 0)
    ∧ (1 < v → (setBlendStrength s v).blendStrength = 1
        ∧ (setStabilizationStrength s v).stabilizationStrength = 1)
    ∧ setBlendStrength s v = { s with blendStrength := (setBlendStrength s v).blendStrength }
    ∧ setStabilizationStrength s v
        = { s with stabilizationStrength := (setStabilizationStrength s v).stabilizationStrength } := by
  refine ⟨applySetters_range calls _ ?_, ?_, ?_, ?_, rfl, rfl⟩
  · simp only [AdvancedFaceSwapper.new]; norm_num
  · intro h0 h1
    simp only [setBlendStrength, setStabilizationStrength, min_eq_right h1, max_eq_right h0,
      and_self]
  · intro h
    have h1 : v ≤ 1 := by linarith
    simp only [setBlendStrength, setStabilizationStrength, min_eq_right h1, max_eq_left h.le,
      and_self]
  · intro h
    simp only [setBlendStrength, setStabilizationStrength, min_eq_left h.le]
    norm_num

/-- C25: for a row index `i` below the number of rows, `extractLandmarks` (of both classes)
returns the five points (col 6, col 7), (col 4, col 5), (col 8, col 9), (col 12, col 13),
(col 10, col 11) of row `i`, in this order and as the detector gave them. -/
theorem landmark_order (faces : Faces) (i : ℕ) (h : i < faces.length) :
    extractLandmarks faces i
      = [⟨faces.at i 6, faces.at i 7⟩, ⟨faces.at i 4, faces.at i 5⟩, ⟨faces.at i 8, faces.at i 9⟩,
         ⟨faces.at i 12, faces.at i 13⟩, ⟨faces.at i 10, faces.at i 11⟩]
    ∧ FaceSwapper.extractLandmarks faces i
      = [⟨faces.at i 6, faces.at i 7⟩, ⟨faces.at i 4, faces.at i 5⟩, ⟨faces.at i 8, faces.at i 9⟩,
         ⟨faces.at i 12, faces.at i 13⟩, ⟨faces.at i 10, faces.at i 11⟩] := by
  have h' : ¬ faces.length ≤ i := by omega
  simp [extractLandmarks, FaceSwapper.extractLandmarks, h']

/-- C25 at a concrete input: the row `goodRow`. -/
theorem landmark_order_witness :
    (0 < [goodRow].length)
    ∧ extractLandmarks [goodRow] 0 = [⟨15, 15⟩, ⟨25, 15⟩, ⟨20, 20⟩, ⟨15, 25⟩, ⟨25, 25⟩]
    ∧ FaceSwapper.extractLandmarks [goodRow] 0
        = [⟨15, 15⟩, ⟨25, 15⟩, ⟨20, 20⟩, ⟨15, 25⟩, ⟨25, 25⟩] :=
  ⟨by decide, (landmark_order [goodRow] 0 (by decide)).1.trans (by decide!),
    (landmark_order [goodRow] 0 (by decide)).2.trans (by decide!)⟩

/-- C26 (the code at the failing input): for a source rectangle at (5, 7), a target
rectangle at (10, 10) and the target landmarks (15, 15), (25, 15), (20, 20), the geometric
fallback of `AdvancedFaceSwapper::detectAndSwap` takes the target points (5, 5), (15, 5),
(10, 10), the landmarks minus the target rectangle's origin, while `FaceSwapper::swapFace`
hands (0, -2), (10, -2), (5, 3) to `cv::getAffineTransform`: the landmarks minus the source
rectangle's origin and minus the target rectangle's origin. Its source points are the source
landmarks minus the source rectangle's origin. -/
theorem swapFace_target_points_shifted_twice :
    firstThreeRelative goodLandmarks ⟨10, 10, 20, 20⟩ = [⟨5, 5⟩, ⟨15, 5⟩, ⟨10, 10⟩]
    ∧ (landmarkSwapperDemo.affinePoints ⟨10, 10, 20, 20⟩ goodLandmarks).1
        = [⟨10, 10⟩, ⟨30, 10⟩, ⟨20, 20⟩]
    ∧ (landmarkSwapperDemo.affinePoints ⟨10, 10, 20, 20⟩ goodLandmarks).2
        = [⟨0, -2⟩, ⟨10, -2⟩, ⟨5, 3⟩]
    ∧ raises (FaceSwapper.swapFace (cvDemo []) landmarkSwapperDemo (constImage 40 40 100)
        ⟨10, 10, 20, 20⟩ goodLandmarks) = false := by
  refine ⟨?_, ?_, ?_, ?_⟩ <;> decide!

/-- C27: for two masks that are not empty and have one size (the resizing of which ends
alike, as `cv::resize` reads the size only), `blendFace` returns the same result; the frame
`detectAndSwap` leaves is the same after `setBlendStrength` with any two values; and for a
rectangle inside the frame `blendFace` returns an image of the frame's size whose samples
inside the rectangle are the 8-bit conversion of `0.5 * original + 0.5 * synthesized`, the
synthesized face being resized to the rectangle. -/
theorem blendFace_two_run (cv : OpenCV) (s : AdvancedFaceSwapper) (swappedFace frame : Mat ℕ)
    (faceRect : Rect) (mask₁ mask₂ : Mat ℕ) (b₁ b₂ : ℚ) (capture : Mat ℕ)
    (hm₁ : mask₁.empty = false) (hm₂ : mask₂.empty = false)
    (hsize : mask₁.sameSize mask₂ = true)
    (hlib : failure (cv.resize mask₁ faceRect.width faceRect.height)
      = failure (cv.resize mask₂ faceRect.width faceRect.height)) :
    blendFace cv swappedFace frame faceRect mask₁ = blendFace cv swappedFace frame faceRect mask₂
    ∧ (detectAndSwap cv (setBlendStrength s b₁) capture).2
        = (detectAndSwap cv (setBlendStrength s b₂) capture).2
    ∧ ∀ resized resizedMask,
        swappedFace.empty = false → frame.empty = false →
        0 ≤ faceRect.width → 0 ≤ faceRect.height →
        faceRect.outOfBounds frame.cols frame.rows = false →
        resizeTo cv swappedFace faceRect.width faceRect.height = .ok resized →
        resizeTo cv mask₁ faceRect.width faceRect.height = .ok resizedMask →
        ∃ out, blendFace cv swappedFace frame faceRect mask₁ = .ok out
          ∧ out.rows = frame.rows ∧ out.cols = frame.cols
          ∧ ∀ i j c, Mat.inRect faceRect i j = true →
              out.px i j c
                = saturate8 (0.5 * (frame.px i j c : ℚ)
                    + 0.5 * (resized.px (i - faceRect.y.toNat) (j - faceRect.x.toNat) c : ℚ)) := by
  refine ⟨blendFace_of_mask cv swappedFace frame faceRect mask₁ mask₂ (hm₁.trans hm₂.symm)
    (resizeTo_failure cv mask₁ mask₂ _ _ hsize hlib), ?_, ?_⟩
  · have k₁ : detectAndSwap cv (setBlendStrength s b₁) capture
        = (retuned (detectAndSwap cv s capture).1 s.enableGFPGAN (max 0 (min 1 b₁)),
            (detectAndSwap cv s capture).2) :=
      detectAndSwap_retuned cv s s.enableGFPGAN (max 0 (min 1 b₁)) capture
    have k₂ : detectAndSwap cv (setBlendStrength s b₂) capture
        = (retuned (detectAndSwap cv s capture).1 s.enableGFPGAN (max 0 (min 1 b₂)),
            (detectAndSwap cv s capture).2) :=
      detectAndSwap_retuned cv s s.enableGFPGAN (max 0 (min 1 b₂)) capture
    rw [k₁, k₂]
  · intro resized resizedMask hface hframe hw hh hin hres hresm
    refine ⟨_, blendFace_inBounds cv swappedFace frame faceRect mask₁ resized resizedMask hface
      hframe hm₁ hw hh hin hres hresm, rfl, rfl, fun i j c hij => ?_⟩
    simp only [Mat.inRect, Bool.and_eq_true, decide_eq_true_eq] at hij
    obtain ⟨⟨⟨hy, hy2⟩, hx⟩, hx2⟩ := hij
    have hin' := hin
    simp only [Rect.outOfBounds, Bool.or_eq_false_iff, decide_eq_false_iff_not, not_lt] at hin'
    have e1 : faceRect.y.toNat + (i - faceRect.y.toNat) = i := by omega
    have e2 : faceRect.x.toNat + (j - faceRect.x.toNat) = j := by omega
    simp only [Mat.setRoi, Mat.inRect, hy, hy2, hx, hx2, Mat.map, Mat.zipWith, Mat.roi, e1, e2,
      decide_True, Bool.and_self, ↓reduceIte]
    congr 1
    ring

/-- C27 at a concrete input: a mask of 255 and a mask of 0, both 20 by 20, on a frame of
samples 100 and a face of samples 200: the sample inside the rectangle is 150 for both. -/
theorem blendFace_two_run_witness :
    ((constImage 20 20 255).empty = false ∧ (constImage 20 20 0).empty = false
      ∧ (constImage 20 20 255).sameSize (constImage 20 20 0) = true
      ∧ failure ((cvDemo []).resize (constImage 20 20 255) 20 20)
          = failure ((cvDemo []).resize (constImage 20 20 0) 20 20))
    ∧ sampleOf (blendFace (cvDemo []) (constImage 30 30 200) (constImage 40 40 100)
        ⟨10, 10, 20, 20⟩ (constImage 20 20 255)) 15 15 1 = some 150
    ∧ blendFace (cvDemo []) (constImage 30 30 200) (constImage 40 40 100) ⟨10, 10, 20, 20⟩
        (constImage 20 20 255)
      = blendFace (cvDemo []) (constImage 30 30 200) (constImage 40 40 100) ⟨10, 10, 20, 20⟩
        (constImage 20 20 0) :=
  ⟨⟨by decide, by decide, by decide, rfl⟩, by decide!,
    (blendFace_two_run (cvDemo []) swapperDemo (constImage 30 30 200) (constImage 40 40 100)
      ⟨10, 10, 20, 20⟩ (constImage 20 20 255) (constImage 20 20 0) (1 / 5) (9 / 10)
      (constImage 40 40 100) (by decide) (by decide) (by decide) rfl).1⟩

/-- C28: the frame `detectAndSwap` leaves has the size of the input frame, and every sample
that lies in none of the rectangles computed from the detector's rows equals the sample of
the input frame (the frame handed in, not the preprocessed copy). -/
theorem detectAndSwap_frame_effect (cv : OpenCV) (s : AdvancedFaceSwapper) (frame : Mat ℕ) :
    (detectAndSwap cv s frame).2.rows = frame.rows
    ∧ (detectAndSwap cv s frame).2.cols = frame.cols
    ∧ ∀ i j c,
        (∀ processedFrame faces, preprocessFrame cv frame = .ok processedFrame →
          cv.detect processedFrame = .ok faces →
          ∀ k, k < faces.length → Mat.inRect (faceRectAt processedFrame faces k) i j = false) →
        (detectAndSwap cv s frame).2.px i j c = frame.px i j c := by
  unfold detectAndSwap
  split
  · exact ⟨rfl, rfl, fun _ _ _ _ => rfl⟩
  · split
    · exact ⟨rfl, rfl, fun _ _ _ _ => rfl⟩
    · next pf hpf =>
      split
      · exact ⟨rfl, rfl, fun _ _ _ _ => rfl⟩
      · next faces hfaces =>
        obtain ⟨q1, q2, q3⟩ := faceLoop_outside cv pf faces (List.range faces.length)
          { s with lastFaceCount := (faces.length : ℤ) } frame
        refine ⟨q1, q2, fun i j c h => q3 i j c (fun k hk => ?_)⟩
        exact h pf faces hpf hfaces k (List.mem_range.1 hk)

/-- C29: for a stabilization strength `α` in [0, 1] and a history of `n ≥ 1` entries, of
which `k` have the current face's size, the weights `1 - α` and `k` times `α / (n + 1)` sum
to at most `1 - α / (n + 1) ≤ 1`; every sample `stabilizeFace` returns is at most the largest
of the current sample and the samples of the matching entries at that position; and when
these are 8-bit samples the output is at most 255 and the 8-bit conversion equals the plain
rounding of the weighted sum (the clamp of the conversion does not act). -/
theorem stabilizeFace_output_bound (s : AdvancedFaceSwapper) (currentFace : Mat ℕ)
    (landmarks : List Point2f) (i j c : ℕ)
    (hα0 : 0 ≤ s.stabilizationStrength) (hα1 : s.stabilizationStrength ≤ 1)
    (hn : 1 ≤ s.previousFaces.length) :
    ((1 - s.stabilizationStrength)
        + ((s.previousFaces.filter fun entry => entry.sameSize currentFace).length : ℚ)
          * (s.stabilizationStrength / ((s.previousFaces.length : ℚ) + 1))
      ≤ 1 - s.stabilizationStrength / ((s.previousFaces.length : ℚ) + 1))
    ∧ 1 - s.stabilizationStrength / ((s.previousFaces.length : ℚ) + 1) ≤ 1
    ∧ (stabilizeFace s currentFace landmarks).px i j c
        ≤ sampleMax s.previousFaces currentFace i j c
    ∧ (sampleMax s.previousFaces currentFace i j c ≤ 255 →
        (stabilizeFace s currentFace landmarks).px i j c ≤ 255
        ∧ (saturate8 (stabilizerWeighting s.stabilizationStrength s.previousFaces
              currentFace i j c) : ℤ)
            = cvRound (stabilizerWeighting s.stabilizationStrength s.previousFaces
                currentFace i j c)) := by
  obtain ⟨w1, w2⟩ := stabilizer_weights s.stabilizationStrength s.previousFaces.length
    (s.previousFaces.filter fun entry => entry.sameSize currentFace).length hα0
    (List.length_filter_le _ _)
  obtain ⟨b0, b1⟩ := stabilizerWeighting_bounds s.stabilizationStrength s.previousFaces
    currentFace i j c hα0 hα1
  have hout : (stabilizeFace s currentFace landmarks).px i j c
      ≤ sampleMax s.previousFaces currentFace i j c := by
    by_cases hrun : s.useTemporalStabilization = true ∧ currentFace.empty = false
    · have hne : s.previousFaces.isEmpty = false := by
        cases hp : s.previousFaces with
        | nil => simp [hp] at hn
        | cons a l => rfl
      rw [stabilizeFace_sample s currentFace landmarks hrun.1 hne hrun.2 i j c]
      exact saturate8_le_of_le _ _ b1
    · have hid : stabilizeFace s currentFace landmarks = currentFace := by
        unfold stabilizeFace
        by_cases h1 : s.useTemporalStabilization = true
        · have h2 : currentFace.empty = true := by
            by_contra h2
            exact hrun ⟨h1, by simpa using h2⟩
          simp [h2]
        · simp [h1]
      rw [hid]
      exact (le_foldr_max _ _).1
  refine ⟨w1, w2, hout, fun h255 => ⟨le_trans hout h255, ?_⟩⟩
  have c0 := cvRound_nonneg _ b0
  have c1 : cvRound (stabilizerWeighting s.stabilizationStrength s.previousFaces
      currentFace i j c) ≤ ((255 : ℕ) : ℤ) :=
    cvRound_le _ _ (le_trans b1 (by exact_mod_cast h255))
  unfold saturate8
  have c1' : cvRound (stabilizerWeighting s.stabilizationStrength s.previousFaces
      currentFace i j c) ≤ 255 := by simpa using c1
  rw [max_eq_right c0, min_eq_right c1']
  exact Int.toNat_of_nonneg c0

/-- C29 at a concrete input: strength 0.7, a history of two entries of which one matches, a
current sample of 100 and a matching sample of 200: the output 77 is at most 200. -/
theorem stabilizeFace_output_bound_witness :
    (0 ≤ mixedHistoryDemo.stabilizationStrength ∧ mixedHistoryDemo.stabilizationStrength ≤ 1
      ∧ 1 ≤ mixedHistoryDemo.previousFaces.length)
    ∧ (stabilizeFace mixedHistoryDemo (constImage 1 1 100) []).px 0 0 0
        ≤ sampleMax mixedHistoryDemo.previousFaces (constImage 1 1 100) 0 0 0
    ∧ sampleMax mixedHistoryDemo.previousFaces (constImage 1 1 100) 0 0 0 = 200
    ∧ (stabilizeFace mixedHistoryDemo (constImage 1 1 100) []).px 0 0 0 = 77 :=
  ⟨⟨by decide!, by decide!, by decide⟩,
    (stabilizeFace_output_bound mixedHistoryDemo (constImage 1 1 100) [] 0 0 0
      (by decide!) (by decide!) (by decide)).2.2.1, by decide!, by decide!⟩

/-- C30: `extractLandmarks` returns no point for an index at or past the number of rows and
exactly 5 points otherwise; so for every index the loop of `detectAndSwap` visits the list
has 5 points, it is not empty (the skip of line 692 is not taken), and `generateFaceMask`
on these landmarks does not take the branch of line 489: the test `size() < 5` fails and the
result does not depend on `cv::ellipse`. -/
theorem landmark_count_dichotomy (cv : OpenCV) (faces : Faces) (i : ℕ) :
    (faces.length ≤ i → extractLandmarks faces i = [])
    ∧ (i < faces.length → (extractLandmarks faces i).length = 5)
    ∧ ∀ k ∈ List.range faces.length,
        (extractLandmarks faces k).length = 5
        ∧ (extractLandmarks faces k).isEmpty = false
        ∧ ∀ (faceRect : Rect),
            ¬ (relativeTo faceRect (extractLandmarks faces k)).length < 5
            ∧ ∀ ellipse, generateFaceMask { cv with ellipse := ellipse } faceRect.width
                  faceRect.height (relativeTo faceRect (extractLandmarks faces k))
                = generateFaceMask cv faceRect.width faceRect.height
                    (relativeTo faceRect (extractLandmarks faces k)) := by
  have five : ∀ k, k < faces.length → (extractLandmarks faces k).length = 5 := by
    intro k hk
    have h' : ¬ faces.length ≤ k := by omega
    simp [extractLandmarks, h']
  refine ⟨fun h => by simp [extractLandmarks, h], five i, ?_⟩
  intro k hk
  have hk' : k < faces.length := List.mem_range.1 hk
  have h5 := five k hk'
  refine ⟨h5, ?_, fun faceRect => ?_⟩
  · cases hl : extractLandmarks faces k with
    | nil => rw [hl] at h5; simp at h5
    | cons a l => rfl
  · have hlen : (relativeTo faceRect (extractLandmarks faces k)).length = 5 := by
      simp [relativeTo, h5]
    refine ⟨by omega, fun ellipse => ?_⟩
    unfold generateFaceMask
    have hn : ¬ (relativeTo faceRect (extractLandmarks faces k)).length < 5 := by omega
    simp only [hn, ↓reduceIte]

end FaceSwap
